import Mathlib

/-!
Verification development for the SNF facility ranking and enrichment pipeline.

The JavaScript sources are shallowly embedded: JS numbers become `ℚ`, the JS
values `undefined` and `null` are explicit constructors, JS objects become
structures whose optional properties are `Option`-valued, async collaborators
(geocoder, CMS metrics fetch, Google place search, place details) become
function parameters returning `Option`/`Except`, and thrown request-fatal
errors become an `Except` error type.  String primitives (`trim`,
`toUpperCase`, `toLowerCase`, `padStart`, `localeCompare`) are re-implemented
over `List Char` so that every definition evaluates by kernel reduction; all
string data in the repository's datasets is ASCII, where these agree with the
JS operations.
-/

namespace SNF

/-- Model of a JS value in a numeric position: `undefined`, `null`, or a
finite number (JS numbers are modelled as rationals; the loaders map
non-finite numbers to `null` before they reach the code embedded here). -/
inductive JsNum where
  | undef
  | null
  | num (q : ℚ)
deriving DecidableEq

/-- Model of the JS global `isNaN` applied to a `JsNum`: `isNaN(undefined)` is
`true` (Number(undefined) is NaN), `isNaN(null)` is `false` (Number(null) is 0),
and a finite number is never NaN. -/
def jsIsNaN : JsNum → Bool
  | .undef => true
  | .null => false
  | .num _ => false

/-- Model of `parseFloat` coerced through `Number.isNaN`: `parseFloat(undefined)`
and `parseFloat(null)` are NaN (`none`); a number parses to itself. -/
def jsParseFloat : JsNum → Option ℚ
  | .undef => none
  | .null => none
  | .num q => some q

/-- Model of the JS nullish coalescing `a ?? b` on numeric positions: `undefined`
and `null` both fall through to `b`. -/
def jsCoalesce (a b : JsNum) : JsNum :=
  match a with
  | .num q => .num q
  | _ => b

/-- Truthiness of a string-or-undefined JS value: `undefined` and the empty
string are falsy, every other string is truthy. -/
def strTruthy : Option String → Bool
  | some s => s != ""
  | none => false

/-- Model of `a || b` where both operands are string-or-undefined values. -/
def jsOrStr (a b : Option String) : Option String :=
  if strTruthy a then a else b

/-- Characters treated as whitespace by the embedded `trim`. -/
def wsChar (c : Char) : Bool :=
  c = ' ' || c = '\t' || c = '\n' || c = '\r'

/-- Model of `String.prototype.trim`. -/
def jsTrim (s : String) : String :=
  ⟨((s.data.dropWhile wsChar).reverse.dropWhile wsChar).reverse⟩

/-- ASCII uppercase of one character. -/
def asciiUpperChar (c : Char) : Char :=
  if 'a' ≤ c && c ≤ 'z' then Char.ofNat (c.toNat - 32) else c

/-- ASCII lowercase of one character. -/
def asciiLowerChar (c : Char) : Char :=
  if 'A' ≤ c && c ≤ 'Z' then Char.ofNat (c.toNat + 32) else c

/-- Model of `String.prototype.toUpperCase` (ASCII). -/
def jsToUpper (s : String) : String :=
  ⟨s.data.map asciiUpperChar⟩

/-- Model of `String.prototype.toLowerCase` (ASCII). -/
def jsToLower (s : String) : String :=
  ⟨s.data.map asciiLowerChar⟩

/-- Model of `String.prototype.padStart(6, "0")`. -/
def padStart6 (s : String) : String :=
  ⟨List.replicate (6 - s.data.length) '0' ++ s.data⟩

/-- Strict lexicographic order on character lists by code point, the
code-unit order `localeCompare` reduces to on the ASCII data handled here. -/
def lexLt : List Char → List Char → Bool
  | [], [] => false
  | [], _ :: _ => true
  | _ :: _, [] => false
  | a :: as, b :: bs =>
    if a.toNat < b.toNat then true
    else if b.toNat < a.toNat then false
    else lexLt as bs

/-- Model of `a.localeCompare(b)` as a sign value. -/
def cmpStr (a b : String) : ℚ :=
  if lexLt a.data b.data then -1 else if lexLt b.data a.data then 1 else 0

/-- Numeric value of a list of decimal digit characters. -/
def digitsVal : List Char → ℕ
  | [] => 0
  | c :: cs => digitsVal cs + c.toNat.sub 48 * 10 ^ cs.length

/-- Parse of an unsigned decimal literal, with optional fraction part.
Exponent and radix forms do not occur in the CMS extracts this models. -/
def parseDec (cs : List Char) : Option ℚ :=
  let ip := cs.takeWhile Char.isDigit
  let rest := cs.dropWhile Char.isDigit
  match rest with
  | [] => if ip.isEmpty then none else some (digitsVal ip : ℚ)
  | '.' :: fs =>
    if fs.all Char.isDigit && (!ip.isEmpty || !fs.isEmpty) then
      some ((digitsVal ip : ℚ) + (digitsVal fs : ℚ) / (10 : ℚ) ^ fs.length)
    else none
  | _ => none

/-- Model of `Number(s)` on a string: trims, handles sign, parses a decimal
literal; an empty string is 0; anything unparseable is NaN (`none`). -/
def jsParseNumber (s : String) : Option ℚ :=
  match (jsTrim s).data with
  | [] => some 0
  | '-' :: cs => (parseDec cs).map (fun q => -q)
  | '+' :: cs => parseDec cs
  | cs => parseDec cs

/-- Model of the loaders' `toNumber`: `null`/`undefined`/`""` map to `null`,
otherwise `Number(value)` with non-finite results mapped to `null`.  The rows
these loaders read hold strings (Papa.parse with `dynamicTyping: false`). -/
def toNumberJs (v : Option String) : Option ℚ :=
  match v with
  | none => none
  | some s => if s = "" then none else jsParseNumber s

/-- Model of the loaders' `toString`: `null`/`undefined` map to `""`, strings
are trimmed. -/
def toStringJs (v : Option String) : String :=
  match v with
  | none => ""
  | some s => jsTrim s

/-! ## Records flowing through `backend/services/analyzeService.js`

Each structure lists exactly the JS object properties the embedded code reads.
A property that may be absent (`undefined`) is `Option`-valued; JS is
case-sensitive, so `Latitude` and `latitude` are distinct fields. -/

/-- An SNF facility record as consumed by `performAnalysis` and the place
resolver.  `ccnParen` stands for the JS property
`"CMS Certification Number (CCN)"` and `overallRatingSpaced` for
`"Overall Rating"`. -/
structure SNFRec where
  facility_name : String
  address : String
  city : String
  state : String
  zip_code : String
  latitude : JsNum
  longitude : JsNum
  Composite_Score : JsNum
  overall_rating : JsNum
  overallRatingSpaced : JsNum
  ccnParen : Option String
  CCN : Option String
  provider_id : Option String
  federal_provider_number : Option String
  provider_number : Option String
  google_place_id : Option String
  google_placeid : Option String
  place_id : Option String
  googlePlaceId : Option String
deriving DecidableEq

/-- A hospital record.  `performAnalysis` reads the capitalized `Latitude` /
`Longitude` properties (analyzeService.js:38-39) while the loaders write the
lowercase `latitude` / `longitude` properties (hospitalsLoader.js:143-159);
both appear here because JS object keys are case-sensitive. -/
structure HospitalRec where
  hospital_name : String
  address : String
  city : String
  state : String
  zip_code : String
  Latitude : JsNum
  Longitude : JsNum
  latitude : JsNum
  longitude : JsNum
deriving DecidableEq

/-- Address bundle passed to `geocodeHospitalAddress` (analyzeService.js:41-47). -/
structure GeoQuery where
  name : String
  address : String
  city : String
  state : String
  zip : String
deriving DecidableEq

/-- A per-CCN historical quality timeline, as built by
`loadHistoricalSNFQuality` (historicalSnfLoader): descriptive facility fields
plus the `year → {metric_key → value}` map. -/
structure TimelineEntry where
  ccn : String
  facility_name : String
  address : String
  city : String
  state : String
  zip_code : String
  county_name : String
  phone_number : String
  years : List (ℕ × List (String × ℚ))
deriving DecidableEq

/-- A per-CCN regulatory history (yearly citation/penalty aggregates); the
analysis engine treats it as an opaque payload attached verbatim. -/
abbrev RegEntry := List (ℕ × List (String × ℚ))

/-- A seeded Google place-id row, keyed by normalized CCN. -/
structure SeedPlace where
  google_place_id : Option String
  google_name : Option String
deriving DecidableEq

/-- A cached/constructed Google review snapshot (googleReviewsService.js,
snapshot literal inside `getReviewSnapshot`); only `fetched_at` is inspected
by the embedded code, the rest is payload. -/
structure ReviewSnapshot where
  google_place_id : String
  google_name : Option String
  google_rating : JsNum
  google_rating_count : JsNum
  recent_reviews : List String
  recent_review_count : ℕ
  recent_avg_rating : JsNum
  fetched_at : Option ℤ
deriving DecidableEq

/-- A place-id cache entry (googlePlaceIdCache.js:3-14). -/
structure PlaceCacheEntry where
  place_id : Option String
  name : Option String
  formatted_address : Option String
  location : Option (ℚ × ℚ)
  resolved_at : Option ℤ
deriving DecidableEq

/-- The value returned by the place resolver's `getPlaceId`: a cache/seed/live
payload together with its `source` tag. -/
structure ResolvedPlace where
  place_id : Option String
  name : Option String
  formatted_address : Option String
  location : Option (ℚ × ℚ)
  resolved_at : Option ℤ
  source : Option String
deriving DecidableEq

/-- A facility together with the `distance` field added by the map at
analyzeService.js:56-62 (spread of the facility plus `distance`). -/
structure RankedSNF where
  base : SNFRec
  distance : ℚ
deriving DecidableEq

/-- One entry of the returned `facilities` array (analyzeService.js:145-153):
the ranked facility spread together with the enrichment fields.  The live
quality metrics spread (`...quality`) is kept as its own key/value list. -/
structure EnrichedFacility where
  base : RankedSNF
  Local_Rank : ℕ
  quality : List (String × JsNum)
  historical_metrics : List (ℕ × List (String × ℚ))
  historical_years_available : ℕ
  regulatory_history : Option RegEntry
  review_enrichment : Option ReviewSnapshot

/-- The `options.limit` value: JS distinguishes an absent key (`undefined`,
taken by the destructuring default) from `null`, `""` and numbers, and all of
`undefined`, `null`, `""`, `0` are falsy at the `limit || DEFAULT_LIMIT`
truncation (analyzeService.js:107). -/
inductive LimitVal where
  | undef
  | null
  | emptyStr
  | num (q : ℚ)
deriving DecidableEq

/-- The `options` argument of `performAnalysis` (analyzeService.js:21-27);
`none` stands for an absent key, picked up by the destructuring defaults. -/
structure AnalyzeOptions where
  mode : Option String := none
  radiusMiles : Option ℚ := none
  limit : LimitVal := .undef
  sortBy : Option String := none
  order : Option String := none

/-- Request-fatal errors thrown by `performAnalysis`: missing `hospitalName`
(line 19), `Hospital not found` with `status = 404` (lines 32-36), and the
error thrown by `geocodeHospitalAddress` when every provider fails
(geocode.js:166). -/
inductive AnalyzeError where
  | required
  | notFound
  | geocodingFailed
deriving DecidableEq

/-- External collaborators of `performAnalysis`, passed as functions.
`dist` is the haversine distance (utils/distance.js, a pure numeric function
whose floating-point trigonometry is abstracted; it receives the hospital
coordinates and the facility's raw `latitude`/`longitude` JS values).
`geocode` models `geocodeHospitalAddress` with `none` for the thrown
`Geocoding failed` error.  `fetchQuality` models `fetchQualityMetrics` applied
to the raw CCN value, with `Except.error` for a rejected promise.
`placeResolver` and `reviews` model the optional `googlePlaceResolver` /
`googleReviewsService` collaborators. -/
structure AnalyzeDeps where
  dist : ℚ → ℚ → JsNum → JsNum → ℚ
  geocode : GeoQuery → Option (ℚ × ℚ)
  fetchQuality : Option String → Except Unit (List (String × JsNum))
  placeResolver : Option (SNFRec → Option ResolvedPlace)
  reviews : Option (String → Option ReviewSnapshot)

/-- Lookup in a JS object modelled as an association list (object keys are
unique, so the first match is the property value). -/
def assocFind {α : Type} (l : List (String × α)) (key : String) : Option α :=
  (l.find? (fun p => p.1 == key)).map Prod.snd

/-- The hospital match (analyzeService.js:29-31): case-insensitive,
whitespace-trimmed exact comparison of `hospital_name` with `hospitalName`. -/
def findHospital (hospitals : List HospitalRec) (hospitalName : String) : Option HospitalRec :=
  hospitals.find? (fun h => jsTrim (jsToUpper h.hospital_name) == jsTrim (jsToUpper hospitalName))

/-- The address bundle handed to the geocoder (analyzeService.js:41-47). -/
def geoQueryOf (h : HospitalRec) : GeoQuery :=
  { name := h.hospital_name, address := h.address, city := h.city, state := h.state,
    zip := h.zip_code }

/-- Hospital coordinate resolution (analyzeService.js:38-52): `parseFloat` of
the capitalized `Latitude`/`Longitude` properties; if either is NaN, the
geocoding collaborator is invoked and its failure aborts the request. -/
def resolveHospitalCoords (deps : AnalyzeDeps) (h : HospitalRec) :
    Except AnalyzeError (ℚ × ℚ) :=
  match jsParseFloat h.Latitude, jsParseFloat h.Longitude with
  | some la, some lo => .ok (la, lo)
  | _, _ =>
    match deps.geocode (geoQueryOf h) with
    | some c => .ok c
    | none => .error .geocodingFailed

/-- The distance/filter stage (analyzeService.js:54-63): keep facilities whose
coordinates are not NaN, attach the distance, keep those within the radius. -/
def withinRadius (dist : ℚ → ℚ → JsNum → JsNum → ℚ) (hLat hLon radius : ℚ)
    (snfs : List SNFRec) : List RankedSNF :=
  ((snfs.filter (fun f => !jsIsNaN f.latitude && !jsIsNaN f.longitude)).map
      (fun f => RankedSNF.mk f (dist hLat hLon f.latitude f.longitude))).filter
    (fun rf => decide (rf.distance ≤ radius))

/-- The value a sort comparison reads from a facility: a number, a string, or
JS `null`. -/
inductive SortVal where
  | vnull
  | vnum (q : ℚ)
  | vstr (s : String)
deriving DecidableEq

/-- The comparator's `valueFor` (analyzeService.js:73-88). -/
def valueFor (sortKey : String) (f : RankedSNF) : SortVal :=
  match sortKey with
  | "rating" | "overall_rating" =>
    match jsCoalesce f.base.overall_rating f.base.overallRatingSpaced with
    | .num q => .vnum q
    | _ => .vnull
  | "composite" | "composite_score" =>
    match f.base.Composite_Score with
    | .num q => .vnum q
    | _ => .vnull
  | "distance" => .vnum f.distance
  | "name" => .vstr (jsToLower f.base.facility_name)
  | _ => .vnull

/-- The comparator body (analyzeService.js:90-104) on already-resolved values:
missing values sink to the bottom, strings use `localeCompare`, numbers use
subtraction, both flipped for descending order.  The two mixed number/string
cases cannot arise (for every sort key, `valueFor` yields strings for exactly
the key `"name"`, and then for every facility); they are ordered here only to
keep the comparator total, where the JS code would throw. -/
def svComparator (ascending : Bool) (va vb : SortVal) : ℚ :=
  match va, vb with
  | .vnull, .vnull => 0
  | .vnull, _ => 1
  | _, .vnull => -1
  | .vstr sa, .vstr sb => if ascending then cmpStr sa sb else cmpStr sb sa
  | .vnum qa, .vnum qb => if ascending then qa - qb else qb - qa
  | .vnum _, .vstr _ => -1
  | .vstr _, .vnum _ => 1

/-- The full sort comparator (analyzeService.js:72-105). -/
def comparator (sortKey : String) (ascending : Bool) (a b : RankedSNF) : ℚ :=
  svComparator ascending (valueFor sortKey a) (valueFor sortKey b)

/-- The comparator as a boolean "may come before" relation, as consumed by a
comparison sort: `a` may precede `b` iff `comparator a b ≤ 0`. -/
def sortLe (sortKey : String) (ascending : Bool) (a b : RankedSNF) : Bool :=
  decide (comparator sortKey ascending a b ≤ 0)

/-- The `[...withDistance].sort(comparator)` stage (analyzeService.js:72),
modelled as a stable merge sort with the embedded comparator. -/
def rankFacilities (sortKey : String) (ascending : Bool) (l : List RankedSNF) :
    List RankedSNF :=
  l.mergeSort (sortLe sortKey ascending)

/-- Resolution of the sort key (analyzeService.js:65). -/
def resolveSortBy (sortBy : Option String) (mode : String) : String :=
  let s := jsToLower (sortBy.getD "")
  if s = "" then (if mode = "best" then "composite" else "distance") else s

/-- Resolution of the sort direction (analyzeService.js:66-70), reduced to the
`isAscending` boolean the comparator consumes. -/
def resolveAscending (order : Option String) (resolvedSortBy : String) : Bool :=
  let o := jsToLower (order.getD "")
  if o = "asc" then true
  else if o = "desc" then false
  else resolvedSortBy == "distance"

/-- The effective truncation bound `limit || DEFAULT_LIMIT`
(analyzeService.js:107): the destructuring default covers `undefined`, the
`||` covers the remaining falsy values. -/
def effectiveLimit : LimitVal → ℚ
  | .num q => if q = 0 then 5 else q
  | _ => 5

/-- JS ToIntegerOrInfinity on a finite number: truncation toward zero. -/
def jsTruncInt (q : ℚ) : ℤ :=
  q.num.tdiv q.den

/-- The length of `arr.slice(0, e)` for an array of length `len`: a negative
bound counts from the end, otherwise it is clamped at `len`. -/
def jsSliceTake (len : ℕ) (e : ℚ) : ℕ :=
  if jsTruncInt e < 0 then ((len : ℤ) + jsTruncInt e).toNat
  else min (jsTruncInt e).toNat len

/-- The raw CCN candidate chain (analyzeService.js:110-114). -/
def rawCcn (f : SNFRec) : Option String :=
  jsOrStr f.ccnParen (jsOrStr f.CCN (jsOrStr f.provider_id f.federal_provider_number))

/-- The normalization at analyzeService.js:115:
`ccn ? String(ccn).padStart(6, "0") : null`. -/
def normalizedCcn (f : SNFRec) : Option String :=
  if strTruthy (rawCcn f) then some (padStart6 ((rawCcn f).getD "")) else none

/-- The initial place-id chain (analyzeService.js:116-122): explicit fields on
the facility, then the seed table keyed by the normalized CCN, then `null`. -/
def initialPlaceId (seeds : List (String × SeedPlace)) (f : SNFRec) : Option String :=
  jsOrStr f.google_place_id <| jsOrStr f.google_placeid <| jsOrStr f.place_id <|
    jsOrStr f.googlePlaceId <| jsOrStr
      (match normalizedCcn f with
       | some nc => (assocFind seeds nc).bind (fun p => p.google_place_id)
       | none => none)
      none

/-- Per-facility enrichment (analyzeService.js:109-153): live quality metrics
(failures caught and degraded to `{}`), historical and regulatory timelines
joined by the raw CCN, place-id resolution fallback, review snapshot. -/
def enrichFacility (deps : AnalyzeDeps) (tl : List (String × TimelineEntry))
    (reg : List (String × RegEntry)) (seeds : List (String × SeedPlace))
    (idx : ℕ) (rf : RankedSNF) : EnrichedFacility :=
  let ccn := rawCcn rf.base
  let quality := match deps.fetchQuality ccn with
    | .ok q => q
    | .error _ => []
  let historical := if strTruthy ccn
    then ((assocFind tl (ccn.getD "")).map (fun e => e.years)).getD []
    else []
  let regulatory := if strTruthy ccn then assocFind reg (ccn.getD "") else none
  let pid0 := initialPlaceId seeds rf.base
  let pid := if !strTruthy pid0 then
      match deps.placeResolver with
      | some resolver =>
        match resolver rf.base with
        | some resolved => if strTruthy resolved.place_id then resolved.place_id else pid0
        | none => pid0
      | none => pid0
    else pid0
  let review := match deps.reviews with
    | some svc => if strTruthy pid then svc (pid.getD "") else none
    | none => none
  { base := rf
    Local_Rank := idx + 1
    quality := quality
    historical_metrics := historical
    historical_years_available := historical.length
    regulatory_history := regulatory
    review_enrichment := review }

/-- The hospital summary in the response (analyzeService.js:157-163). -/
structure HospitalSummary where
  name : String
  city : String
  state : String
  latitude : ℚ
  longitude : ℚ

/-- The value resolved by `performAnalysis` (analyzeService.js:156-166). -/
structure AnalyzeResult where
  hospital : HospitalSummary
  facilities : List EnrichedFacility
  totalWithinRadius : ℕ

/-- The resolved sort key of a request: `resolveSortBy` applied to the
destructured `sortBy` and `mode` (analyzeService.js:22,65). -/
def requestSortKey (opts : AnalyzeOptions) : String :=
  resolveSortBy opts.sortBy (opts.mode.getD "closest")

/-- The ranked in-radius facility list of a request
(analyzeService.js:54-105). -/
def rankedOf (deps : AnalyzeDeps) (snfs : List SNFRec) (opts : AnalyzeOptions)
    (hLat hLon : ℚ) : List RankedSNF :=
  rankFacilities (requestSortKey opts)
    (resolveAscending opts.order (requestSortKey opts))
    (withinRadius deps.dist hLat hLon (opts.radiusMiles.getD 50) snfs)

/-- The truncated top facility list `ranked.slice(0, limit || DEFAULT_LIMIT)`
(analyzeService.js:107). -/
def topOf (deps : AnalyzeDeps) (snfs : List SNFRec) (opts : AnalyzeOptions)
    (hLat hLon : ℚ) : List RankedSNF :=
  (rankedOf deps snfs opts hLat hLon).take
    (jsSliceTake (rankedOf deps snfs opts hLat hLon).length (effectiveLimit opts.limit))

/-- The successful analysis value (analyzeService.js:54-166) for a resolved
hospital with resolved coordinates. -/
def analyzeOk (deps : AnalyzeDeps) (snfs : List SNFRec)
    (tl : List (String × TimelineEntry)) (reg : List (String × RegEntry))
    (seeds : List (String × SeedPlace)) (opts : AnalyzeOptions)
    (hosp : HospitalRec) (hLat hLon : ℚ) : AnalyzeResult :=
  { hospital := { name := hosp.hospital_name, city := hosp.city,
                  state := hosp.state, latitude := hLat, longitude := hLon }
    facilities := (topOf deps snfs opts hLat hLon).enum.map
      (fun p => enrichFacility deps tl reg seeds p.1 p.2)
    totalWithinRadius :=
      (withinRadius deps.dist hLat hLon (opts.radiusMiles.getD 50) snfs).length }

/-- The full `performAnalysis` pipeline (analyzeService.js:8-167).  A missing
`hospitalName` (`undefined`, `null` or `""`, all falsy) is collapsed to `""`. -/
def performAnalysis (deps : AnalyzeDeps) (hospitals : List HospitalRec)
    (snfs : List SNFRec) (tl : List (String × TimelineEntry))
    (reg : List (String × RegEntry)) (seeds : List (String × SeedPlace))
    (hospitalName : String) (opts : AnalyzeOptions) :
    Except AnalyzeError AnalyzeResult :=
  if hospitalName = "" then .error .required
  else
    match findHospital hospitals hospitalName with
    | none => .error .notFound
    | some hospital =>
      match resolveHospitalCoords deps hospital with
      | .error e => .error e
      | .ok (hLat, hLon) => .ok (analyzeOk deps snfs tl reg seeds opts hospital hLat hLon)

/-! ## Dashboard metric resolver (`snf-dashboard/src/SNFDashboard.js:56-90`) -/

/-- A metric definition from the static catalog (SNFDashboard.js:16-29); only
the fields `resolveMetricValue` reads are kept. -/
structure MetricDef where
  label : String
  currentKey : Option String
  historicalKey : String
  higherIsBetter : Bool
deriving DecidableEq

/-- A facility as seen by the dashboard resolver: its own properties (where
current metric values live, read via `metric.currentKey`) and the attached
`historical_metrics` year map. -/
structure DashFacility where
  current : List (String × JsNum)
  historical_metrics : List (ℕ × List (String × JsNum))
deriving DecidableEq

/-- The trend part of a resolved metric (SNFDashboard.js:85). -/
structure Trend where
  delta : ℚ
  good : Bool
  yearSpan : String
deriving DecidableEq

/-- The value returned by `resolveMetricValue` (SNFDashboard.js:89);
`source = none` models the JS `null` source. -/
structure ResolvedMetric where
  value : JsNum
  source : Option String
  historicalLatestYear : Option ℕ
  trend : Option Trend
deriving DecidableEq

/-- Lookup in a year-keyed JS object modelled as an association list. -/
def natAssocFind {α : Type} (l : List (ℕ × α)) (k : ℕ) : Option α :=
  (l.find? (fun p => p.1 == k)).map Prod.snd

/-- The sorted year list `Object.keys(history).map(Number).sort((a,b) => a-b)`
(SNFDashboard.js:59-61); object keys are unique, hence the dedup. -/
def histYears (history : List (ℕ × List (String × JsNum))) : List ℕ :=
  ((history.map Prod.fst).dedup).mergeSort (fun a b => decide (a ≤ b))

/-- The current value read `metric.currentKey && metric.currentKey in facility
? facility[metric.currentKey] : undefined` (SNFDashboard.js:57). -/
def currentValueOf (fac : DashFacility) (m : MetricDef) : Option JsNum :=
  match m.currentKey with
  | some k => if k != "" then assocFind fac.current k else none
  | none => none

/-- The pair `(historicalLatestYear, historicalLatest)` when the globally
latest timeline year holds a non-null value for the metric
(SNFDashboard.js:63-72), otherwise `none`. -/
def historicalLatestOf (fac : DashFacility) (m : MetricDef) : Option (ℕ × ℚ) :=
  match (histYears fac.historical_metrics).getLast? with
  | some ly =>
    match (natAssocFind fac.historical_metrics ly).bind
        (fun ms => assocFind ms m.historicalKey) with
    | some (.num q) => some (ly, q)
    | _ => none
  | none => none

/-- The resolved value `currentValue ?? historicalLatest` (SNFDashboard.js:74);
`historicalLatest` starts as JS `null` and is only replaced by a non-null
latest-year value. -/
def resolvedValueOf (fac : DashFacility) (m : MetricDef) : JsNum :=
  jsCoalesce ((currentValueOf fac m).getD .undef)
    (match historicalLatestOf fac m with
     | some (_, q) => .num q
     | none => .null)

/-- The resolved source (SNFDashboard.js:75): `"current"` when the current
value is non-nullish, else `"historical"` when a latest historical value was
found, else JS `null`. -/
def resolvedSourceOf (fac : DashFacility) (m : MetricDef) : Option String :=
  match (currentValueOf fac m).getD .undef with
  | .num _ => some "current"
  | _ => if (historicalLatestOf fac m).isSome then some "historical" else none

/-- The trend computation (SNFDashboard.js:77-87): requires at least two
timeline years and a non-null metric value in the globally earliest and
globally latest of them. -/
def trendOf (fac : DashFacility) (m : MetricDef) : Option Trend :=
  if (histYears fac.historical_metrics).length ≥ 2 then
    match (histYears fac.historical_metrics).head? with
    | some ey =>
      match historicalLatestOf fac m,
          (natAssocFind fac.historical_metrics ey).bind
            (fun ms => assocFind ms m.historicalKey) with
      | some (ly, hl), some (.num ev) =>
        some { delta := hl - ev,
               good := if m.higherIsBetter then decide (hl - ev > 0) else !decide (hl - ev > 0),
               yearSpan := s!"{ey}→{ly}" }
      | _, _ => none
    | none => none
  else none

/-- The metric resolver (SNFDashboard.js:56-90): current value first, else the
latest historical value, with a trend when the timeline has at least two years
and the metric is non-null in the globally earliest and latest of them. -/
def resolveMetricValue (fac : DashFacility) (m : MetricDef) : ResolvedMetric :=
  { value := resolvedValueOf fac m
    source := resolvedSourceOf fac m
    historicalLatestYear := (historicalLatestOf fac m).map Prod.fst
    trend := trendOf fac m }

/-! ## Loader row mappers

The CSV/API field-alias extraction (`getField`, `pick`, `parseLocation`) is
abstracted as the already-picked arguments of the mappers; the mappers embed
what the source does with the picked values. -/

/-- A picked identifier value: CMS feeds deliver CCNs as strings or as bare
numbers, both coerced through `String(value)`. -/
inductive JsPrim where
  | str (s : String)
  | intv (n : ℤ)
deriving DecidableEq

/-- Model of `String(value)` on a picked identifier. -/
def jsPrimToString : JsPrim → String
  | .str s => s
  | .intv n => toString n

/-- JS truthiness of a picked identifier: `""` and `0` are falsy. -/
def jsPrimTruthy : JsPrim → Bool
  | .str s => s != ""
  | .intv n => n != 0

/-- Model of the loaders' `toString` applied to a picked identifier. -/
def toStringPrim : Option JsPrim → String
  | none => ""
  | some p => jsTrim (jsPrimToString p)

/-- A number-or-null loader value as a JS property value. -/
def optNumJs : Option ℚ → JsNum
  | some q => .num q
  | none => .null

/-- The picked inputs of `mapHospitalRow` (hospitalsLoader.js:109-137):
results of the `getField`/`pick` extraction and of `parseLocation`. -/
structure HospitalRowFields where
  name : Option String
  address : Option String
  city : Option String
  state : Option String
  zip : Option String
  parsedLatitude : Option ℚ
  parsedLongitude : Option ℚ

/-- The hospital record built at hospitalsLoader.js:143-159, restricted to the
properties the embedded analysis code reads (the omitted properties — id,
provider_id, county_name, phone_number, hospital_type, hospital_ownership,
emergency_services, _key — are never read by `performAnalysis`).  The object
literal has no `Latitude`/`Longitude` keys, so those properties are
`undefined`. -/
def mapHospitalRow (r : HospitalRowFields) : Option HospitalRec :=
  if !strTruthy r.name then none
  else some
    { hospital_name := toStringJs r.name
      address := toStringJs r.address
      city := toStringJs r.city
      state := jsToUpper (toStringJs r.state)
      zip_code := toStringJs r.zip
      Latitude := .undef
      Longitude := .undef
      latitude := optNumJs r.parsedLatitude
      longitude := optNumJs r.parsedLongitude }

/-- The picked inputs of `mapSNFRow` (snfsLoader.js:114-167): the picked
provider identifier, descriptive fields, parsed coordinates and the four
`toNumber`-ed star ratings (in source order: overall, staffing, qm, health). -/
structure SNFRowFields where
  providerId : Option JsPrim
  name : Option String
  address : Option String
  city : Option String
  state : Option String
  zip : Option String
  overall : Option ℚ
  staffing : Option ℚ
  qm : Option ℚ
  health : Option ℚ
  parsedLatitude : Option ℚ
  parsedLongitude : Option ℚ

/-- The SNF record built by `mapSNFRow` (snfsLoader.js:114-219), restricted to
the properties the embedded code reads.  `norm` is the name-key normalizer
from `utils/strings.js` (not part of the analyzed sources), passed as a
function.  The CCN is `toString(providerId)` — with no zero-padding — and is
copied to `CCN`, `"CMS Certification Number (CCN)"` and `provider_id` when
non-empty (snfsLoader.js:169,186-190). -/
def mapSNFRow (norm : String → String) (r : SNFRowFields) : Option SNFRec :=
  if !strTruthy r.name then none
  else
    let ratings := [r.overall, r.staffing, r.qm, r.health].filterMap id
    let composite : Option ℚ :=
      if ratings.isEmpty then none else some (ratings.sum / ratings.length)
    let ccn := match r.providerId with
      | some p => if jsPrimTruthy p then toStringPrim (some p) else norm (toStringJs r.name)
      | none => norm (toStringJs r.name)
    some
      { facility_name := toStringJs r.name
        address := toStringJs r.address
        city := toStringJs r.city
        state := jsToUpper (toStringJs r.state)
        zip_code := toStringJs r.zip
        latitude := optNumJs r.parsedLatitude
        longitude := optNumJs r.parsedLongitude
        Composite_Score := optNumJs (composite.map (fun c => c * 20))
        overall_rating := match r.overall with
          | some q => .num q
          | none => .undef
        overallRatingSpaced := match r.overall with
          | some q => .num q
          | none => .undef
        ccnParen := if ccn != "" then some ccn else none
        CCN := if ccn != "" then some ccn else none
        provider_id := if ccn != "" then some ccn else none
        federal_provider_number := none
        provider_number := none
        google_place_id := none
        google_placeid := none
        place_id := none
        googlePlaceId := none }

/-! ## Historical quality aggregator (`historicalSnfLoader.js`, src/unnamed/part_002) -/

/-- A parsed CSV row: header name to string cell value (Papa.parse with
`header: true`, `dynamicTyping: false`). -/
abbrev Row := List (String × String)

/-- Exact-key property read `row[k]` on a parsed row. -/
def rowGet (row : Row) (k : String) : Option String :=
  (row.find? (fun p => p.1 == k)).map Prod.snd

/-- Whether a character survives `normalizeFieldName` unchanged. -/
def isLowerAlnum (c : Char) : Bool :=
  ('a' ≤ c && c ≤ 'z') || ('0' ≤ c && c ≤ '9')

/-- The header normalizer (part_002:37-42): lowercase, runs of non-alphanumeric
characters become one `_`, then a leading/trailing `_` is stripped. -/
def normalizeFieldName (s : String) : String :=
  let mapped := (jsToLower s).data.map (fun c => if isLowerAlnum c then c else '_')
  let collapsed := mapped.foldr
    (fun c acc => if c = '_' && acc.head? = some '_' then acc else c :: acc) []
  ⟨((collapsed.dropWhile (· = '_')).reverse.dropWhile (· = '_')).reverse⟩

/-- The alias-tolerant field read `pickField` (part_002:55-67); on rows whose
headers collide after normalization the later header wins, as in the source's
`Map.set` loop. -/
def pickField (row : Row) (candidates : List String) : Option String :=
  candidates.findSome? (fun cand =>
    ((row.filter (fun p => normalizeFieldName p.1 == normalizeFieldName cand)).getLast?).map
      Prod.snd)

/-- The CCN normalizer `normalizeCCNFromRow` (part_002:69-79):
`toString(pickField(row, [...])).padStart(6, "0")`. -/
def normalizeCCNFromRow (row : Row) : String :=
  padStart6 (toStringJs (pickField row
    ["cms_certification_number_(ccn)", "federal_provider_number", "provider_number",
     "ccn", "federal provider number"]))

/-- The MDS measure-code table (part_002:17-23). -/
def MDS_METRIC_CODES : List (String × List String) :=
  [("pressure_ulcer_rate", ["453"]),
   ("fall_with_major_injury_rate", ["410"]),
   ("medication_review_rate", ["452"]),
   ("discharge_to_community_rate", ["430"]),
   ("healthcare_associated_infection_rate", ["407"])]

/-- The claims-based measure-code table (part_002:25-30). -/
def CLAIMS_METRIC_CODES : List (String × List String) :=
  [("short_stay_rehospitalization_rate", ["521"]),
   ("short_stay_ed_visit_rate", ["522"]),
   ("long_stay_hospitalization_rate", ["551"]),
   ("long_stay_ed_visit_rate", ["552"])]

/-- The QRP measure-code table (part_002:32-35). -/
def QRP_METRIC_CODES : List (String × String) :=
  [("self_care_at_discharge", "S_024_04_OBS_RATE"),
   ("mobility_at_discharge", "S_025_04_OBS_RATE")]

/-- One aggregated per-facility entry of a yearly pass (part_002:139-150). -/
structure YearEntry where
  ccn : String
  year : ℕ
  facility_name : String
  address : String
  city : String
  state : String
  zip_code : String
  county_name : String
  phone_number : String
  metrics : List (String × ℚ)
deriving DecidableEq

/-- Key-preserving object update `obj[k] = v`: an existing key keeps its
position (as a JS `Map.set` does), a new key is appended. -/
def objSet {α : Type} (m : List (String × α)) (k : String) (v : α) : List (String × α) :=
  if (m.find? (fun p => p.1 == k)).isSome
  then m.map (fun p => if p.1 == k then (k, v) else p)
  else m ++ [(k, v)]

/-- Model of `a || b` on plain strings. -/
def jsOrS (a b : String) : String :=
  if a != "" then a else b

/-- The fresh entry created by `ensureEntry` (part_002:139-150). -/
def blankEntry (ccn : String) (year : ℕ) : YearEntry :=
  { ccn := ccn, year := year, facility_name := "", address := "", city := "",
    state := "", zip_code := "", county_name := "", phone_number := "", metrics := [] }

/-- Descriptive-field fill (part_002:104-134): each field keeps its first
non-empty value; `mergeEntryDetails` and `mergeProviderInfo` are textually
identical in the source and are embedded once. -/
def mergeEntryDetails (e : YearEntry) (row : Option Row) : YearEntry :=
  match row with
  | none => e
  | some r =>
    { e with
      facility_name := jsOrS e.facility_name
        (toStringJs (jsOrStr (rowGet r "Provider Name") (rowGet r "provider_name")))
      address := jsOrS e.address
        (toStringJs (jsOrStr (rowGet r "Provider Address") (rowGet r "provider_address")))
      city := jsOrS e.city
        (toStringJs (jsOrStr (rowGet r "Provider City") (rowGet r "provider_city")))
      state := jsOrS e.state
        (toStringJs (jsOrStr (rowGet r "Provider State") (rowGet r "provider_state")))
      zip_code := jsOrS e.zip_code
        (toStringJs (jsOrStr (rowGet r "Provider Zip Code") (rowGet r "provider_zip_code")))
      county_name := jsOrS e.county_name
        (toStringJs (jsOrStr (rowGet r "Provider County Name") (rowGet r "provider_county_name")))
      phone_number := jsOrS e.phone_number
        (toStringJs (jsOrStr (rowGet r "Provider Phone Number") (rowGet r "provider_phone_number"))) }

/-- The find-or-create-and-merge step `ensureEntry` (part_002:136-156),
returning the merged entry and the updated map. -/
def ensureEntry (m : List (String × YearEntry)) (ccn : String)
    (pinfo : List (String × Row)) (row : Row) (year : ℕ) :
    YearEntry × List (String × YearEntry) :=
  let e0 := match assocFind m ccn with
    | some e => e
    | none => blankEntry ccn year
  let e1 := mergeEntryDetails e0 (some row)
  let e2 := mergeEntryDetails e1 (assocFind pinfo ccn)
  (e2, objSet m ccn e2)

/-- The provider-info index built by `loadProviderInfo` (part_002:81-102). -/
def loadProviderInfo (rows : List Row) : List (String × Row) :=
  rows.foldl
    (fun m row =>
      let ccn := normalizeCCNFromRow row
      if jsTrim ccn = "" then m else objSet m ccn row)
    []

/-- One generic yearly ingestion pass (part_002:193-209, 217-232, 245-261):
normalize the CCN (skipping rows whose trimmed CCN is empty), match the
measure code against a code table, parse the score cell, and store the metric
on the facility's entry.  `codeMatch` is list membership for the MDS/claims
tables and equality for the QRP table; `valueKeys` are the score column
aliases tried with `||`. -/
def ingestRows (codes : List (String × List String)) (valueKeys : List String)
    (pinfo : List (String × Row)) (year : ℕ) (rows : List Row)
    (m0 : List (String × YearEntry)) : List (String × YearEntry) :=
  rows.foldl
    (fun m row =>
      let ccn := normalizeCCNFromRow row
      if jsTrim ccn = "" then m
      else
        let measureCode := jsTrim
          ((jsOrStr (rowGet row "Measure Code")
            (jsOrStr (rowGet row "measure code") (some ""))).getD "")
        match (codes.find? (fun p => p.2.contains measureCode)).map Prod.fst with
        | none => m
        | some mk =>
          match toNumberJs (match valueKeys with
            | [k1, k2] => jsOrStr (rowGet row k1) (rowGet row k2)
            | _ => none) with
          | none => m
          | some v =>
            let (e, m1) := ensureEntry m ccn pinfo row year
            objSet m1 ccn { e with metrics := objSet e.metrics mk v })
    m0

/-- One full yearly pass `loadYear` (part_002:183-270): provider-info index,
then the MDS, claims and QRP ingestion passes, keeping entries with at least
one metric.  The QRP table's single codes are wrapped into singleton lists so
its equality match coincides with list membership. -/
def loadYear (pinfoRows mdsRows claimsRows qrpRows : List Row) (year : ℕ) :
    List YearEntry :=
  let pinfo := loadProviderInfo pinfoRows
  let m1 := ingestRows MDS_METRIC_CODES
    ["Four Quarter Average Score", "four quarter average score"] pinfo year mdsRows []
  let m2 := ingestRows CLAIMS_METRIC_CODES
    ["Adjusted Score", "adjusted score"] pinfo year claimsRows m1
  let m3 := ingestRows (QRP_METRIC_CODES.map (fun p => (p.1, [p.2])))
    ["Score", "score"] pinfo year qrpRows m2
  (m3.map Prod.snd).filter (fun e => !e.metrics.isEmpty)

/-! ## Google place resolver (`googlePlaceResolverService.js`, src/unnamed/part_001)
and review snapshot service (`googleReviewsService.js`) -/

/-- The key parts joiner `normalizeKeyParts` (part_001:6-12). -/
def normalizeKeyParts (parts : List (Option String)) : String :=
  let p1 := (parts.filterMap id).filter (fun s => s != "")
  let p2 := ((p1.map (fun s => jsTrim (jsToLower s)))).filter (fun s => s != "")
  String.intercalate "|" p2

/-- The place-search query `buildQuery` (part_001:14-25). -/
def buildQuery (f : SNFRec) : Option String :=
  let pieces := String.intercalate ", "
    ([f.facility_name, f.address, f.city, f.state, f.zip_code].filter (fun s => s != ""))
  if pieces != "" then some pieces
  else if f.facility_name != "" then some f.facility_name
  else none

/-- The location bias `buildLocationBias` (part_001:27-32): `none` when either
coordinate is nullish or NaN; the source renders the pair as
`point:lat,lon`, kept here as the pair itself. -/
def buildLocationBias (f : SNFRec) : Option (ℚ × ℚ) :=
  match f.latitude, f.longitude with
  | .num a, .num b => some (a, b)
  | _, _ => none

/-- The query handed to the live `findPlaceId` call. -/
structure FindQuery where
  query : Option String
  locationBias : Option (ℚ × ℚ)

/-- A place returned by the live find-place call. -/
structure FoundPlace where
  place_id : String
  name : Option String
  formatted_address : Option String
  location : Option (ℚ × ℚ)

/-- The cache key `keyForFacility` (part_001:43-59): `ccn:` plus the
zero-padded CCN when one of the identifier fields is truthy, otherwise
`name:` plus the joined identity parts. -/
def keyForFacility (f : SNFRec) : String :=
  let ccn := jsOrStr f.CCN (jsOrStr f.provider_id
    (jsOrStr f.federal_provider_number f.provider_number))
  if strTruthy ccn then "ccn:" ++ padStart6 (ccn.getD "")
  else "name:" ++ normalizeKeyParts
    [some f.facility_name, some f.address, some f.city, some f.state, some f.zip_code]

/-- The freshness check `isFresh` (part_001:61-64): false when `resolved_at`
is missing or 0 (falsy), else `now - resolved_at < maxAgeMs`. -/
def isFreshPlace (now maxAgeMs : ℤ) (e : PlaceCacheEntry) : Bool :=
  match e.resolved_at with
  | some t => if t = 0 then false else decide (now - t < maxAgeMs)
  | none => false

/-- A raw cache entry returned without a `source` tag, as `return cached ||
null` does (part_001:87,94,107). -/
def cachedAsResolved : Option PlaceCacheEntry → Option ResolvedPlace
  | some c => some
    { place_id := c.place_id
      name := c.name
      formatted_address := c.formatted_address
      location := c.location
      resolved_at := c.resolved_at
      source := none }
  | none => none

/-- The seed-table hit of `getPlaceId` (part_001:69-78): zero-padded CCN
lookup, returned with `source = "seed"` when the seeded place id is truthy. -/
def seedHitOf (seeds : List (String × SeedPlace)) (f : SNFRec) : Option ResolvedPlace :=
  if strTruthy (jsOrStr f.CCN (jsOrStr f.provider_id f.federal_provider_number)) then
    match assocFind seeds
        (padStart6 ((jsOrStr f.CCN
          (jsOrStr f.provider_id f.federal_provider_number)).getD "")) with
    | some sp =>
      if strTruthy sp.google_place_id then
        some { place_id := sp.google_place_id,
               name := jsOrStr sp.google_name none,
               formatted_address := none, location := none, resolved_at := none,
               source := some "seed" }
      else none
    | none => none
  else none

/-- The fresh-cache hit of `getPlaceId` (part_001:80-84): the cached entry
with `source = "cache"` when within the freshness window. -/
def freshCacheHitOf (cached : Option PlaceCacheEntry) (now maxAgeMs : ℤ) :
    Option ResolvedPlace :=
  match cached with
  | some c =>
    if isFreshPlace now maxAgeMs c then
      some { place_id := c.place_id, name := c.name,
             formatted_address := c.formatted_address, location := c.location,
             resolved_at := c.resolved_at, source := some "cache" }
    else none
  | none => none

/-- The place-id resolution `getPlaceId` (part_001:66-109): seed table by
normalized CCN first, then a fresh cache entry, then — only with an API key —
the live find-place call, whose failure or empty result falls back to the
stale cache entry or `null`.  The collaborators are the cache read, the API
key and the live call (`Except.error` for a rejected promise, caught at
part_001:105-108); the cache write on success does not affect the returned
value and is not modelled. -/
def getPlaceId (seeds : List (String × SeedPlace))
    (cache : String → Option PlaceCacheEntry) (apiKey : Option String)
    (now maxAgeMs : ℤ) (findPlace : FindQuery → Except Unit (Option FoundPlace))
    (f : SNFRec) : Option ResolvedPlace :=
  match seedHitOf seeds f with
  | some r => some r
  | none =>
    match freshCacheHitOf (cache (keyForFacility f)) now maxAgeMs with
    | some r => some r
    | none =>
      if !strTruthy apiKey then cachedAsResolved (cache (keyForFacility f))
      else
        match findPlace { query := buildQuery f, locationBias := buildLocationBias f } with
        | .error _ => cachedAsResolved (cache (keyForFacility f))
        | .ok none => cachedAsResolved (cache (keyForFacility f))
        | .ok (some found) =>
          some { place_id := some found.place_id,
                 name := jsOrStr found.name none,
                 formatted_address := jsOrStr found.formatted_address none,
                 location := found.location,
                 resolved_at := some now, source := some "fresh" }

/-- The review snapshot fetch `getReviewSnapshot` (googleReviewsService.js):
a fresh cache entry is returned immediately; without an API key the stale
entry (or `null`) is returned; otherwise the live fetch runs and its failure
is caught, degrading to the stale entry or `null`.  The pure snapshot
assembly around `fetchPlaceDetails` (including the cache write, all inside
the try) cannot fail on its own and is folded into the `fetchSnap`
collaborator. -/
def getReviewSnapshot (cache : String → Option ReviewSnapshot)
    (apiKey : Option String) (now maxAgeMs : ℤ)
    (fetchSnap : String → Except Unit ReviewSnapshot) (placeId : String) :
    Option ReviewSnapshot :=
  if placeId = "" then none
  else if (match cache placeId with
    | some c =>
      match c.fetched_at with
      | some t => if t = 0 then false else decide (now - t < maxAgeMs)
      | none => false
    | none => false) then cache placeId
  else if !strTruthy apiKey then cache placeId
  else
    match fetchSnap placeId with
    | .ok snap => some snap
    | .error _ => cache placeId

/-! ## Result observers and concrete fixtures

The observers project a `performAnalysis` result onto small decidable views;
the fixtures are concrete records used to evaluate the embedded code on
specific inputs. -/

/-- The error of a failed analysis, if any. -/
def errorOf (x : Except AnalyzeError AnalyzeResult) : Option AnalyzeError :=
  match x with
  | .error e => some e
  | .ok _ => none

/-- Number of returned facilities of a successful analysis. -/
def facilitiesLen (x : Except AnalyzeError AnalyzeResult) : Option ℕ :=
  x.toOption.map (fun r => r.facilities.length)

/-- The `totalWithinRadius` of a successful analysis. -/
def totalWithin (x : Except AnalyzeError AnalyzeResult) : Option ℕ :=
  x.toOption.map (fun r => r.totalWithinRadius)

/-- The per-facility `historical_years_available` of a successful analysis. -/
def histYearCounts (x : Except AnalyzeError AnalyzeResult) : Option (List ℕ) :=
  x.toOption.map (fun r => r.facilities.map (fun ef => ef.historical_years_available))

/-- The per-facility `historical_metrics` of a successful analysis. -/
def histMetricsOf (x : Except AnalyzeError AnalyzeResult) :
    Option (List (List (ℕ × List (String × ℚ)))) :=
  x.toOption.map (fun r => r.facilities.map (fun ef => ef.historical_metrics))

/-- The hospital-summary latitude of a successful analysis. -/
def hospitalLatOf (x : Except AnalyzeError AnalyzeResult) : Option ℚ :=
  x.toOption.map (fun r => r.hospital.latitude)

/-- Fixture collaborators: constant distance 3, geocoder resolving to the
origin, failing live quality fetch, no optional services. -/
def fxDeps : AnalyzeDeps :=
  { dist := fun _ _ _ _ => 3
    geocode := fun _ => some (0, 0)
    fetchQuality := fun _ => .error ()
    placeResolver := none
    reviews := none }

/-- Fixture collaborators with a geocoder whose whole fallback chain fails. -/
def fxDepsGeoFail : AnalyzeDeps :=
  { fxDeps with geocode := fun _ => none }

/-- Fixture hospital carrying capitalized coordinate properties (such a record
is never produced by the loaders; it exercises the path that skips the
geocoder). -/
def fxHosp : HospitalRec :=
  { hospital_name := "General Hospital", address := "2 Ave", city := "Metro",
    state := "AL", zip_code := "35005", Latitude := .num 34, Longitude := .num (-87),
    latitude := .num 34, longitude := .num (-87) }

/-- Fixture hospital with no coordinates in any spelling. -/
def fxHospNoCoords : HospitalRec :=
  { fxHosp with Latitude := .undef, Longitude := .undef,
                latitude := .null, longitude := .null }

/-- Fixture facility whose CCN fields carry the unpadded string `"15009"`,
exactly as `mapSNFRow` stores a 5-digit provider id. -/
def fxSnf : SNFRec :=
  { facility_name := "Alpha Care", address := "1 Road", city := "Town", state := "AL",
    zip_code := "35004", latitude := .num 1, longitude := .num 1,
    Composite_Score := .num 80, overall_rating := .num 4, overallRatingSpaced := .num 4,
    ccnParen := some "15009", CCN := some "15009", provider_id := some "15009",
    federal_provider_number := none, provider_number := none,
    google_place_id := none, google_placeid := none, place_id := none,
    googlePlaceId := none }

/-- Fixture facility identical to `fxSnf` but with the zero-padded CCN. -/
def fxSnfPadded : SNFRec :=
  { fxSnf with ccnParen := some "015009", CCN := some "015009",
               provider_id := some "015009" }

/-- Fixture historical timeline keyed by the zero-padded CCN `"015009"`, as
`loadHistoricalSNFQuality` keys its output. -/
def fxTl : List (String × TimelineEntry) :=
  [("015009",
    { ccn := "015009", facility_name := "Alpha Care", address := "", city := "",
      state := "", zip_code := "", county_name := "", phone_number := "",
      years := [(2022, [("pressure_ulcer_rate", 10)])] })]

/-- Fixture dashboard facility: no current values, historical years
`{2022: 10, 2024: 14}` for the metric key `"m"`. -/
def fxDashFac : DashFacility :=
  { current := []
    historical_metrics := [(2022, [("m", .num 10)]), (2024, [("m", .num 14)])] }

/-- Fixture dashboard facility whose globally latest year (2024) lacks the
metric `"m"` although 2022 holds it. -/
def fxDashGap : DashFacility :=
  { current := []
    historical_metrics := [(2022, [("m", .num 10)]), (2024, [("x", .num 1)])] }

/-- Fixture higher-is-better metric definition with no current key. -/
def fxMetricHigher : MetricDef :=
  { label := "M", currentKey := none, historicalKey := "m", higherIsBetter := true }

/-- Fixture collaborators in which every enrichment sub-step fails: the live
quality fetch rejects, the place resolver's live lookup rejects (empty seed
table, empty cache, no API key), and the review service's live fetch rejects. -/
def fxDepsAllFail : AnalyzeDeps :=
  { dist := fun _ _ _ _ => 3
    geocode := fun _ => none
    fetchQuality := fun _ => .error ()
    placeResolver := some (getPlaceId [] (fun _ => none) none 0 0 (fun _ => .error ()))
    reviews := some (getReviewSnapshot (fun _ => none) none 0 0 (fun _ => .error ())) }

/-- Fixture picked SNF row with the 5-digit provider id `"15009"` and no star
ratings. -/
def fxSnfRow : SNFRowFields :=
  { providerId := some (.str "15009"), name := some "Alpha Care",
    address := some "1 Road", city := some "Town", state := some "al",
    zip := some "35004", overall := none, staffing := none, qm := none,
    health := none, parsedLatitude := some 1, parsedLongitude := some 1 }

/-- Fixture picked hospital row with parsed coordinates. -/
def fxHospRow : HospitalRowFields :=
  { name := some "General Hospital", address := some "2 Ave", city := some "Metro",
    state := some "al", zip := some "35005", parsedLatitude := some 34,
    parsedLongitude := some (-87) }

/-- Fixture ranked facility at distance 3. -/
def fxR1 : RankedSNF := ⟨fxSnf, 3⟩

/-- Fixture ranked facility whose name differs from `fxR1` only by case. -/
def fxR2 : RankedSNF := ⟨{ fxSnf with facility_name := "ALPHA CARE" }, 4⟩

/-- Fixture ranked facility with a null composite score. -/
def fxRNull1 : RankedSNF := ⟨{ fxSnf with Composite_Score := .null }, 3⟩

/-- A second fixture ranked facility with a null composite score. -/
def fxRNull2 : RankedSNF :=
  ⟨{ fxSnf with Composite_Score := .null, facility_name := "Beta" }, 4⟩

/-! ## Order-theoretic facts about the embedded comparator -/

theorem lexLt_cons (x y : Char) (xs ys : List Char) :
    lexLt (x :: xs) (y :: ys) =
      (if x.toNat < y.toNat then true
       else if y.toNat < x.toNat then false
       else lexLt xs ys) := rfl

theorem lexLt_irrefl (l : List Char) : lexLt l l = false := by
  induction l with
  | nil => rfl
  | cons a as ih => simp [lexLt, ih]

theorem lexLt_asymm : ∀ (a b : List Char), lexLt a b = true → lexLt b a = false
  | [], [] => by simp [lexLt]
  | [], _ :: _ => by simp [lexLt]
  | _ :: _, [] => by simp [lexLt]
  | x :: xs, y :: ys => by
    intro h
    rw [lexLt_cons] at h ⊢
    rcases Nat.lt_trichotomy x.toNat y.toNat with h1 | h1 | h1
    · have h2 : ¬ y.toNat < x.toNat := by omega
      simp [h1, h2]
    · have h2 : ¬ x.toNat < y.toNat := by omega
      have h3 : ¬ y.toNat < x.toNat := by omega
      rw [if_neg h2, if_neg h3] at h
      rw [if_neg h3, if_neg h2]
      exact lexLt_asymm xs ys h
    · have h2 : ¬ x.toNat < y.toNat := by omega
      simp [h1, h2] at h

theorem lexLt_trans : ∀ (a b c : List Char),
    lexLt a b = true → lexLt b c = true → lexLt a c = true
  | [], b, c => by
    intro h1 h2
    cases b with
    | nil => simp [lexLt] at h1
    | cons y ys =>
      cases c with
      | nil => simp [lexLt] at h2
      | cons z zs => simp [lexLt]
  | x :: xs, b, c => by
    intro h1 h2
    cases b with
    | nil => simp [lexLt] at h1
    | cons y ys =>
      cases c with
      | nil => simp [lexLt] at h2
      | cons z zs =>
        rw [lexLt_cons] at h1 h2 ⊢
        by_cases hxy : x.toNat < y.toNat <;> by_cases hyz : y.toNat < z.toNat
        · have hxz : x.toNat < z.toNat := by omega
          simp [hxz]
        · by_cases hzy : z.toNat < y.toNat
          · simp [hyz, hzy] at h2
          · have hxz : x.toNat < z.toNat := by omega
            simp [hxz]
        · by_cases hyx : y.toNat < x.toNat
          · simp [hxy, hyx] at h1
          · have hxz : x.toNat < z.toNat := by omega
            simp [hxz]
        · by_cases hyx : y.toNat < x.toNat
          · simp [hxy, hyx] at h1
          · by_cases hzy : z.toNat < y.toNat
            · simp [hyz, hzy] at h2
            · have h1' : lexLt xs ys = true := by simpa [hxy, hyx] using h1
              have h2' : lexLt ys zs = true := by simpa [hyz, hzy] using h2
              have hxz : ¬ x.toNat < z.toNat := by omega
              have hzx : ¬ z.toNat < x.toNat := by omega
              simpa [hxz, hzx] using lexLt_trans xs ys zs h1' h2'

theorem charToNat_injective : Function.Injective Char.toNat :=
  StrictMono.injective fun _ _ h => h

theorem lexLt_connex : ∀ (a b : List Char),
    lexLt a b = false → lexLt b a = false → a = b
  | [], [] => fun _ _ => rfl
  | [], _ :: _ => by
    intro h _
    simp [lexLt] at h
  | _ :: _, [] => by
    intro _ h
    simp [lexLt] at h
  | x :: xs, y :: ys => by
    intro h1 h2
    rw [lexLt_cons] at h1 h2
    by_cases hxy : x.toNat < y.toNat
    · simp [hxy] at h1
    · by_cases hyx : y.toNat < x.toNat
      · simp [hyx] at h2
      · have h1' : lexLt xs ys = false := by simpa [hxy, hyx] using h1
        have h2' : lexLt ys xs = false := by simpa [hyx, hxy] using h2
        have hc : x = y := charToNat_injective (by omega)
        rw [hc, lexLt_connex xs ys h1' h2']

theorem lexLt_false_trans (a b c : List Char)
    (h1 : lexLt b a = false) (h2 : lexLt c b = false) : lexLt c a = false := by
  by_contra hca
  have hca' : lexLt c a = true := by simpa using hca
  by_cases hab : lexLt a b = true
  · have := lexLt_trans c a b hca' hab
    simp [this] at h2
  · have hab' : lexLt a b = false := by simpa using hab
    have heq : a = b := lexLt_connex a b hab' h1
    subst heq
    simp [hca'] at h2

theorem cmpStr_nonpos_iff (a b : String) :
    cmpStr a b ≤ 0 ↔ lexLt b.data a.data = false := by
  by_cases h1 : lexLt a.data b.data = true
  · rw [cmpStr, if_pos h1, lexLt_asymm _ _ h1]
    norm_num
  · have h1' : lexLt a.data b.data = false := by simpa using h1
    by_cases h2 : lexLt b.data a.data = true
    · rw [cmpStr, if_neg (by simp [h1']), if_pos h2, h2]
      norm_num
    · have h2' : lexLt b.data a.data = false := by simpa using h2
      rw [cmpStr, if_neg (by simp [h1']), if_neg (by simp [h2']), h2']
      norm_num

theorem cmpStr_self (a : String) : cmpStr a a = 0 := by
  rw [cmpStr, if_neg (by simp [lexLt_irrefl]), if_neg (by simp [lexLt_irrefl])]

theorem svComparator_trans (asc : Bool) (va vb vc : SortVal)
    (h1 : svComparator asc va vb ≤ 0) (h2 : svComparator asc vb vc ≤ 0) :
    svComparator asc va vc ≤ 0 := by
  rcases va with _ | qa | sa <;> rcases vb with _ | qb | sb <;> rcases vc with _ | qc | sc <;>
      cases asc <;> simp_all [svComparator] <;> try linarith
  · rw [cmpStr_nonpos_iff] at h1 h2 ⊢
    exact lexLt_false_trans _ _ _ h2 h1
  · rw [cmpStr_nonpos_iff] at h1 h2 ⊢
    exact lexLt_false_trans _ _ _ h1 h2

theorem svComparator_total (asc : Bool) (va vb : SortVal) :
    svComparator asc va vb ≤ 0 ∨ svComparator asc vb va ≤ 0 := by
  rcases va with _ | qa | sa <;> rcases vb with _ | qb | sb <;> cases asc <;>
      simp only [svComparator, Bool.false_eq_true, if_false, if_true]
  all_goals try (left; norm_num; done)
  all_goals try (right; norm_num; done)
  · rcases le_total qa qb with h | h
    · right; linarith
    · left; linarith
  · rcases le_total qa qb with h | h
    · left; linarith
    · right; linarith
  · by_cases h : lexLt sa.data sb.data = true
    · right
      rw [cmpStr_nonpos_iff]
      exact lexLt_asymm _ _ h
    · left
      rw [cmpStr_nonpos_iff]
      simpa using h
  · by_cases h : lexLt sa.data sb.data = true
    · left
      rw [cmpStr_nonpos_iff]
      exact lexLt_asymm _ _ h
    · right
      rw [cmpStr_nonpos_iff]
      simpa using h

theorem sortLe_trans (k : String) (asc : Bool) (a b c : RankedSNF)
    (h1 : sortLe k asc a b = true) (h2 : sortLe k asc b c = true) :
    sortLe k asc a c = true := by
  simp only [sortLe, decide_eq_true_eq] at h1 h2 ⊢
  exact svComparator_trans asc _ _ _ h1 h2

theorem sortLe_total (k : String) (asc : Bool) (a b : RankedSNF) :
    (sortLe k asc a b || sortLe k asc b a) = true := by
  rcases svComparator_total asc (valueFor k a) (valueFor k b) with h | h
  · simp [sortLe, comparator, h]
  · simp [sortLe, comparator, h]

theorem rankFacilities_pairwise (k : String) (asc : Bool) (l : List RankedSNF) :
    (rankFacilities k asc l).Pairwise (fun a b => comparator k asc a b ≤ 0) := by
  have h := @List.sorted_mergeSort RankedSNF (sortLe k asc)
    (fun a b c => sortLe_trans k asc a b c) (fun a b => sortLe_total k asc a b) l
  refine List.Pairwise.imp ?_ h
  intro a b hab
  simpa [sortLe, decide_eq_true_eq] using hab

theorem rankFacilities_perm (k : String) (asc : Bool) (l : List RankedSNF) :
    (rankFacilities k asc l).Perm l :=
  List.mergeSort_perm l _

/-! ## Structural facts about the analysis pipeline -/

theorem valueFor_distance (f : RankedSNF) : valueFor "distance" f = .vnum f.distance := rfl

theorem valueFor_name (f : RankedSNF) :
    valueFor "name" f = .vstr (jsToLower f.base.facility_name) := rfl

theorem valueFor_composite (f : RankedSNF) :
    valueFor "composite" f =
      (match f.base.Composite_Score with
       | .num q => SortVal.vnum q
       | _ => SortVal.vnull) := rfl

theorem enrichFacility_base (deps : AnalyzeDeps) (tl : List (String × TimelineEntry))
    (reg : List (String × RegEntry)) (seeds : List (String × SeedPlace))
    (idx : ℕ) (rf : RankedSNF) : (enrichFacility deps tl reg seeds idx rf).base = rf := rfl

theorem enrichFacility_quality (deps : AnalyzeDeps) (tl : List (String × TimelineEntry))
    (reg : List (String × RegEntry)) (seeds : List (String × SeedPlace))
    (idx : ℕ) (rf : RankedSNF) :
    (enrichFacility deps tl reg seeds idx rf).quality =
      (match deps.fetchQuality (rawCcn rf.base) with
       | .ok q => q
       | .error _ => []) := rfl

theorem withinRadius_distance_le (dist : ℚ → ℚ → JsNum → JsNum → ℚ)
    (hLat hLon radius : ℚ) (snfs : List SNFRec) (rf : RankedSNF)
    (h : rf ∈ withinRadius dist hLat hLon radius snfs) : rf.distance ≤ radius := by
  unfold withinRadius at h
  have := List.of_mem_filter h
  exact of_decide_eq_true this

theorem jsSliceTake_le (len : ℕ) (e : ℚ) : jsSliceTake len e ≤ len := by
  unfold jsSliceTake
  split <;> omega

theorem performAnalysis_eq_ok (deps : AnalyzeDeps) (hospitals : List HospitalRec)
    (snfs : List SNFRec) (tl : List (String × TimelineEntry))
    (reg : List (String × RegEntry)) (seeds : List (String × SeedPlace))
    (hospitalName : String) (opts : AnalyzeOptions) (hosp : HospitalRec) (hLat hLon : ℚ)
    (hname : hospitalName ≠ "")
    (hfind : findHospital hospitals hospitalName = some hosp)
    (hcoords : resolveHospitalCoords deps hosp = .ok (hLat, hLon)) :
    performAnalysis deps hospitals snfs tl reg seeds hospitalName opts =
      .ok (analyzeOk deps snfs tl reg seeds opts hosp hLat hLon) := by
  unfold performAnalysis
  simp only [if_neg hname, hfind, hcoords]

theorem performAnalysis_ok_inv (deps : AnalyzeDeps) (hospitals : List HospitalRec)
    (snfs : List SNFRec) (tl : List (String × TimelineEntry))
    (reg : List (String × RegEntry)) (seeds : List (String × SeedPlace))
    (hospitalName : String) (opts : AnalyzeOptions) (r : AnalyzeResult)
    (h : performAnalysis deps hospitals snfs tl reg seeds hospitalName opts = .ok r) :
    hospitalName ≠ "" ∧
    ∃ hosp hLat hLon, findHospital hospitals hospitalName = some hosp ∧
      resolveHospitalCoords deps hosp = .ok (hLat, hLon) ∧
      r = analyzeOk deps snfs tl reg seeds opts hosp hLat hLon := by
  unfold performAnalysis at h
  by_cases hname : hospitalName = ""
  · rw [if_pos hname] at h
    cases h
  · rw [if_neg hname] at h
    cases hfind : findHospital hospitals hospitalName with
    | none =>
      simp only [hfind] at h
      cases h
    | some hosp =>
      simp only [hfind] at h
      cases hcoords : resolveHospitalCoords deps hosp with
      | error e =>
        simp only [hcoords] at h
        cases h
      | ok c =>
        obtain ⟨hLat, hLon⟩ := c
        simp only [hcoords] at h
        refine ⟨hname, hosp, hLat, hLon, rfl, hcoords, ?_⟩
        cases h
        rfl

theorem performAnalysis_error_inv (deps : AnalyzeDeps) (hospitals : List HospitalRec)
    (snfs : List SNFRec) (tl : List (String × TimelineEntry))
    (reg : List (String × RegEntry)) (seeds : List (String × SeedPlace))
    (hospitalName : String) (opts : AnalyzeOptions) (e : AnalyzeError)
    (h : performAnalysis deps hospitals snfs tl reg seeds hospitalName opts = .error e) :
    (hospitalName = "" ∧ e = .required) ∨
    (hospitalName ≠ "" ∧ findHospital hospitals hospitalName = none ∧ e = .notFound) ∨
    (hospitalName ≠ "" ∧ ∃ hosp, findHospital hospitals hospitalName = some hosp ∧
      resolveHospitalCoords deps hosp = .error e) := by
  unfold performAnalysis at h
  by_cases hname : hospitalName = ""
  · rw [if_pos hname] at h
    exact .inl ⟨hname, (Except.error.inj h).symm⟩
  · rw [if_neg hname] at h
    cases hfind : findHospital hospitals hospitalName with
    | none =>
      simp only [hfind] at h
      exact .inr (.inl ⟨hname, rfl, (Except.error.inj h).symm⟩)
    | some hosp =>
      simp only [hfind] at h
      cases hcoords : resolveHospitalCoords deps hosp with
      | error e2 =>
        simp only [hcoords] at h
        cases h
        exact .inr (.inr ⟨hname, hosp, rfl, hcoords⟩)
      | ok c =>
        obtain ⟨hLat, hLon⟩ := c
        simp only [hcoords] at h
        cases h

theorem analyzeOk_facilities_le (deps : AnalyzeDeps) (snfs : List SNFRec)
    (tl : List (String × TimelineEntry)) (reg : List (String × RegEntry))
    (seeds : List (String × SeedPlace)) (opts : AnalyzeOptions)
    (hosp : HospitalRec) (hLat hLon : ℚ) :
    (analyzeOk deps snfs tl reg seeds opts hosp hLat hLon).facilities.length ≤
      (analyzeOk deps snfs tl reg seeds opts hosp hLat hLon).totalWithinRadius := by
  have hlen : (rankedOf deps snfs opts hLat hLon).length =
      (withinRadius deps.dist hLat hLon (opts.radiusMiles.getD 50) snfs).length :=
    (rankFacilities_perm _ _ _).length_eq
  simp only [analyzeOk, List.length_map, List.enum_length, topOf, List.length_take]
  omega

theorem analyzeOk_mem_facilities (deps : AnalyzeDeps) (snfs : List SNFRec)
    (tl : List (String × TimelineEntry)) (reg : List (String × RegEntry))
    (seeds : List (String × SeedPlace)) (opts : AnalyzeOptions)
    (hosp : HospitalRec) (hLat hLon : ℚ) (ef : EnrichedFacility)
    (h : ef ∈ (analyzeOk deps snfs tl reg seeds opts hosp hLat hLon).facilities) :
    ef.base ∈ withinRadius deps.dist hLat hLon (opts.radiusMiles.getD 50) snfs := by
  simp only [analyzeOk, List.mem_map] at h
  obtain ⟨p, hp, rfl⟩ := h
  rw [enrichFacility_base]
  have h2 : p.2 ∈ topOf deps snfs opts hLat hLon := by
    have := List.enum_map_snd (topOf deps snfs opts hLat hLon)
    have hmem : p.2 ∈ (topOf deps snfs opts hLat hLon).enum.map Prod.snd :=
      List.mem_map_of_mem Prod.snd hp
    rwa [this] at hmem
  have h3 : p.2 ∈ rankedOf deps snfs opts hLat hLon :=
    List.take_subset _ _ h2
  exact (rankFacilities_perm _ _ _).subset h3

/-! ## Claim theorems -/

/-- C1: for every hospital that resolves (name match, with coordinates stored
or successfully geocoded), every facility set, radius and limit, the analysis
result satisfies `facilities.length ≤ totalWithinRadius` and every returned
facility's distance is at most the effective `radiusMiles`. -/
theorem analyze_radius_and_truncation (deps : AnalyzeDeps)
    (hospitals : List HospitalRec) (snfs : List SNFRec)
    (tl : List (String × TimelineEntry)) (reg : List (String × RegEntry))
    (seeds : List (String × SeedPlace)) (hospitalName : String)
    (opts : AnalyzeOptions) (r : AnalyzeResult)
    (h : performAnalysis deps hospitals snfs tl reg seeds hospitalName opts = .ok r) :
    r.facilities.length ≤ r.totalWithinRadius ∧
    ∀ ef ∈ r.facilities, ef.base.distance ≤ opts.radiusMiles.getD 50 := by
  obtain ⟨hname, hosp, hLat, hLon, hfind, hcoords, rfl⟩ :=
    performAnalysis_ok_inv deps hospitals snfs tl reg seeds hospitalName opts r h
  refine ⟨analyzeOk_facilities_le _ _ _ _ _ _ _ _ _, ?_⟩
  intro ef hef
  exact withinRadius_distance_le _ _ _ _ _ _
    (analyzeOk_mem_facilities _ _ _ _ _ _ _ _ _ _ hef)

unseal List.mergeSort List.merge in
/-- Witness for C1 at a concrete one-facility input. -/
theorem analyze_radius_and_truncation_witness :
    ∃ r, performAnalysis fxDeps [fxHosp] [fxSnf] fxTl [] [] "general hospital" {} = .ok r ∧
      r.facilities.length ≤ r.totalWithinRadius ∧
      ∀ ef ∈ r.facilities, ef.base.distance ≤ ({} : AnalyzeOptions).radiusMiles.getD 50 := by
  obtain ⟨r, hr⟩ :
      ∃ r, performAnalysis fxDeps [fxHosp] [fxSnf] fxTl [] [] "general hospital" {} = .ok r :=
    ⟨_, rfl⟩
  exact ⟨r, hr, analyze_radius_and_truncation _ _ _ _ _ _ _ _ r hr⟩

/-- C2 (counterexample): the claim's "fails iff no match" is refuted by a
matched hospital without coordinates whose geocoding fails: `performAnalysis`
fails with `GeocodingFailed`, not `NotFound`, although the name matches. -/
theorem analyze_fails_despite_match :
    (findHospital [fxHospNoCoords] "General Hospital").isSome = true ∧
    errorOf (performAnalysis fxDepsGeoFail [fxHospNoCoords] [] [] [] []
      "General Hospital" {}) = some .geocodingFailed := by
  constructor
  · decide
  · decide

/-- C2 (amended): for a nonempty `hospitalName`, and provided every matched
hospital's coordinates resolve (stored or geocoded), `performAnalysis` fails
exactly when the name has no case-insensitive whitespace-trimmed match, the
failure is `NotFound` (404) with no partial result, and a resolvable hospital
with zero in-radius facilities yields `facilities = []` and
`totalWithinRadius = 0` rather than an error. -/
theorem analyze_notFound_iff (deps : AnalyzeDeps) (hospitals : List HospitalRec)
    (snfs : List SNFRec) (tl : List (String × TimelineEntry))
    (reg : List (String × RegEntry)) (seeds : List (String × SeedPlace))
    (hospitalName : String) (opts : AnalyzeOptions)
    (hname : hospitalName ≠ "")
    (hgeo : ∀ hosp, findHospital hospitals hospitalName = some hosp →
      ∃ c, resolveHospitalCoords deps hosp = .ok c) :
    ((∃ e, performAnalysis deps hospitals snfs tl reg seeds hospitalName opts = .error e) ↔
      findHospital hospitals hospitalName = none) ∧
    (∀ e, performAnalysis deps hospitals snfs tl reg seeds hospitalName opts = .error e →
      e = .notFound) ∧
    (∀ hosp hLat hLon, findHospital hospitals hospitalName = some hosp →
      resolveHospitalCoords deps hosp = .ok (hLat, hLon) →
      withinRadius deps.dist hLat hLon (opts.radiusMiles.getD 50) snfs = [] →
      performAnalysis deps hospitals snfs tl reg seeds hospitalName opts =
        .ok (analyzeOk deps snfs tl reg seeds opts hosp hLat hLon) ∧
      (analyzeOk deps snfs tl reg seeds opts hosp hLat hLon).facilities = [] ∧
      (analyzeOk deps snfs tl reg seeds opts hosp hLat hLon).totalWithinRadius = 0) := by
  refine ⟨⟨?_, ?_⟩, ?_, ?_⟩
  · rintro ⟨e, he⟩
    rcases performAnalysis_error_inv _ _ _ _ _ _ _ _ _ he with
      ⟨h1, _⟩ | ⟨_, h2, _⟩ | ⟨_, hosp, hfind, hcoords⟩
    · exact absurd h1 hname
    · exact h2
    · obtain ⟨c, hc⟩ := hgeo hosp hfind
      rw [hc] at hcoords
      cases hcoords
  · intro hfind
    refine ⟨.notFound, ?_⟩
    unfold performAnalysis
    simp only [if_neg hname, hfind]
  · intro e he
    rcases performAnalysis_error_inv _ _ _ _ _ _ _ _ _ he with
      ⟨h1, _⟩ | ⟨_, _, h3⟩ | ⟨_, hosp, hfind, hcoords⟩
    · exact absurd h1 hname
    · exact h3
    · obtain ⟨c, hc⟩ := hgeo hosp hfind
      rw [hc] at hcoords
      cases hcoords
  · intro hosp hLat hLon hfind hcoords hwd
    have hok := performAnalysis_eq_ok deps hospitals snfs tl reg seeds hospitalName opts
      hosp hLat hLon hname hfind hcoords
    have hranked : rankedOf deps snfs opts hLat hLon = [] := by
      unfold rankedOf
      rw [hwd]
      exact List.mergeSort_nil
    have htop : topOf deps snfs opts hLat hLon = [] := by
      unfold topOf
      rw [hranked]
      simp
    refine ⟨hok, ?_, ?_⟩
    · simp [analyzeOk, htop]
    · simp [analyzeOk, hwd]

/-- Witness for C2 (amended): an unknown name fails (with `NotFound`), and a
resolvable hospital with no facilities yields the empty ranked list. -/
theorem analyze_notFound_iff_witness :
    (∃ e, performAnalysis fxDeps [fxHosp] [] [] [] [] "Nonexistent Hospital" {} = .error e) ∧
    (∀ e, performAnalysis fxDeps [fxHosp] [] [] [] [] "Nonexistent Hospital" {} = .error e →
      e = .notFound) ∧
    (performAnalysis fxDeps [fxHosp] [] [] [] [] "General Hospital" {} =
      .ok (analyzeOk fxDeps [] [] [] [] {} fxHosp 34 (-87)) ∧
     (analyzeOk fxDeps [] [] [] [] {} fxHosp 34 (-87)).facilities = [] ∧
     (analyzeOk fxDeps [] [] [] [] {} fxHosp 34 (-87)).totalWithinRadius = 0) := by
  have hnone : findHospital [fxHosp] "Nonexistent Hospital" = none := by decide
  have hA := analyze_notFound_iff fxDeps [fxHosp] [] [] [] [] "Nonexistent Hospital" {}
    (by decide)
    (by
      intro hosp hh
      rw [hnone] at hh
      cases hh)
  have hB := analyze_notFound_iff fxDeps [fxHosp] [] [] [] [] "General Hospital" {}
    (by decide)
    (by
      intro hosp hh
      refine ⟨(34, -87), ?_⟩
      have : hosp = fxHosp := by
        have hfx : findHospital [fxHosp] "General Hospital" = some fxHosp := by decide
        rw [hfx] at hh
        exact (Option.some.inj hh).symm
      rw [this]
      rfl)
  refine ⟨hA.1.mpr hnone, hA.2.1, ?_⟩
  exact hB.2.2 fxHosp 34 (-87) (by decide) rfl rfl

/-- C3: in the ranked list produced by the analysis sort, sorting by
`distance` ascending places the nearest facility first; sorting by
`composite` descending places the highest composite first; for every sort key
and direction, facilities whose resolved sort-key value is null sit after all
facilities with a value; the string key `name` resolves to the lowercased
facility name, so names differing only by case compare equal; the ranked list
inside `performAnalysis` is exactly this sort of the in-radius list; and the
defaults resolve `closest` to distance/ascending and `best` to
composite/descending. -/
theorem ranked_sort_spec :
    (∀ (l : List RankedSNF) (f : RankedSNF) (rest : List RankedSNF),
        rankFacilities "distance" true l = f :: rest →
        ∀ g ∈ rest, f.distance ≤ g.distance) ∧
    (∀ (l : List RankedSNF) (f : RankedSNF) (rest : List RankedSNF),
        rankFacilities "composite" false l = f :: rest →
        ∀ g ∈ rest, ∀ q, valueFor "composite" g = .vnum q →
          ∃ p, valueFor "composite" f = .vnum p ∧ q ≤ p) ∧
    (∀ (key : String) (asc : Bool) (l : List RankedSNF) (i j : ℕ)
        (hi : i < (rankFacilities key asc l).length)
        (hj : j < (rankFacilities key asc l).length),
        i < j →
        valueFor key ((rankFacilities key asc l).get ⟨i, hi⟩) = .vnull →
        valueFor key ((rankFacilities key asc l).get ⟨j, hj⟩) = .vnull) ∧
    (∀ f : RankedSNF, valueFor "name" f = .vstr (jsToLower f.base.facility_name)) ∧
    (∀ (asc : Bool) (a b : RankedSNF),
        jsToLower a.base.facility_name = jsToLower b.base.facility_name →
        comparator "name" asc a b = 0) ∧
    (∀ (deps : AnalyzeDeps) (snfs : List SNFRec) (opts : AnalyzeOptions) (hLat hLon : ℚ),
        rankedOf deps snfs opts hLat hLon =
          rankFacilities (requestSortKey opts)
            (resolveAscending opts.order (requestSortKey opts))
            (withinRadius deps.dist hLat hLon (opts.radiusMiles.getD 50) snfs)) ∧
    (resolveSortBy (some "distance") "closest" = "distance" ∧
     resolveAscending none "distance" = true ∧
     resolveSortBy none "best" = "composite" ∧
     resolveAscending none "composite" = false) := by
  refine ⟨?_, ?_, ?_, ?_, ?_, ?_, ?_⟩
  · intro l f rest hsort g hg
    have hp := rankFacilities_pairwise "distance" true l
    rw [hsort] at hp
    have hc := List.rel_of_pairwise_cons hp hg
    rw [comparator, valueFor_distance, valueFor_distance] at hc
    simp only [svComparator, if_true] at hc
    simp at hc
    linarith
  · intro l f rest hsort g hg q hq
    have hp := rankFacilities_pairwise "composite" false l
    rw [hsort] at hp
    have hc := List.rel_of_pairwise_cons hp hg
    unfold comparator at hc
    rw [hq] at hc
    cases hf : valueFor "composite" f with
    | vnull =>
      rw [hf] at hc
      norm_num [svComparator] at hc
    | vnum p =>
      rw [hf] at hc
      refine ⟨p, rfl, ?_⟩
      simp [svComparator] at hc
      linarith
    | vstr s =>
      rw [hf] at hc
      norm_num [svComparator] at hc
  · intro key asc l i j hi hj hij hnull
    have hp := rankFacilities_pairwise key asc l
    rw [List.pairwise_iff_get] at hp
    have hc := hp ⟨i, hi⟩ ⟨j, hj⟩ (by simpa using hij)
    unfold comparator at hc
    rw [hnull] at hc
    cases hv : valueFor key ((rankFacilities key asc l).get ⟨j, hj⟩) with
    | vnull => rfl
    | vnum p =>
      rw [hv] at hc
      norm_num [svComparator] at hc
    | vstr s =>
      rw [hv] at hc
      norm_num [svComparator] at hc
  · intro f
    exact valueFor_name f
  · intro asc a b hab
    unfold comparator
    rw [valueFor_name, valueFor_name, hab]
    cases asc <;> simp [svComparator, cmpStr_self]
  · intro deps snfs opts hLat hLon
    rfl
  · refine ⟨?_, ?_, ?_, ?_⟩ <;> decide

unseal List.mergeSort List.merge in
/-- Witness for C3 at concrete inputs: a singleton sort for the two ordering
parts, a two-element sort with null composite scores for the null-sinking
part, and names differing only by case for the comparator tie. -/
theorem ranked_sort_spec_witness :
    (∀ g ∈ ([] : List RankedSNF), fxR1.distance ≤ g.distance) ∧
    (∀ g ∈ ([] : List RankedSNF), ∀ q, valueFor "composite" g = .vnum q →
      ∃ p, valueFor "composite" fxR1 = .vnum p ∧ q ≤ p) ∧
    valueFor "composite"
      ((rankFacilities "composite" true [fxRNull1, fxRNull2]).get ⟨1, by decide⟩) = .vnull ∧
    valueFor "name" fxR1 = .vstr "alpha care" ∧
    comparator "name" true fxR1 fxR2 = 0 := by
  refine ⟨?_, ?_, ?_, ?_, ?_⟩
  · exact ranked_sort_spec.1 [fxR1] fxR1 [] (by simp [rankFacilities])
  · exact ranked_sort_spec.2.1 [fxR1] fxR1 [] (by simp [rankFacilities])
  · exact ranked_sort_spec.2.2.1 "composite" true [fxRNull1, fxRNull2] 0 1
      (by decide) (by decide) (by decide) (by decide)
  · have h := ranked_sort_spec.2.2.2.1 fxR1
    rw [h]
    decide
  · exact ranked_sort_spec.2.2.2.2.1 true fxR1 fxR2 (by decide)

unseal List.mergeSort List.merge in
/-- C4: a facility with a current value for a metric resolves with
`source = "current"` and that value, even when differing historical data
exists; and with no current value but historical years `{2022: 10, 2024: 14}`
for a higher-is-better metric, resolution yields value 14, historical source,
a trend with delta 4 marked good. -/
theorem resolveMetric_current_precedence :
    (∀ (fac : DashFacility) (m : MetricDef) (k : String) (q : ℚ),
        m.currentKey = some k → k ≠ "" → assocFind fac.current k = some (.num q) →
        (resolveMetricValue fac m).source = some "current" ∧
        (resolveMetricValue fac m).value = .num q) ∧
    resolveMetricValue fxDashFac fxMetricHigher =
      { value := .num 14, source := some "historical", historicalLatestYear := some 2024,
        trend := some { delta := 4, good := true, yearSpan := "2022→2024" } } := by
  constructor
  · intro fac m k q hk hk2 hfind
    have hkb : (k != "") = true := by
      simpa [bne_iff_ne] using hk2
    have hcur : currentValueOf fac m = some (.num q) := by
      unfold currentValueOf
      simp only [hk]
      rw [if_pos hkb, hfind]
    constructor
    · show resolvedSourceOf fac m = some "current"
      unfold resolvedSourceOf
      rw [hcur]
      rfl
    · show resolvedValueOf fac m = .num q
      unfold resolvedValueOf
      rw [hcur]
      rfl
  · have hy : histYears fxDashFac.historical_metrics = [2022, 2024] := by decide
    have hl : historicalLatestOf fxDashFac fxMetricHigher = some (2024, 14) := by decide
    have he : (natAssocFind fxDashFac.historical_metrics 2022).bind
        (fun ms => assocFind ms fxMetricHigher.historicalKey) = some (.num 10) := by decide
    have htrend : trendOf fxDashFac fxMetricHigher =
        some { delta := 4, good := true, yearSpan := "2022→2024" } := by
      unfold trendOf
      rw [hy]
      simp only [List.length_cons, List.length_nil, List.head?_cons]
      rw [if_pos (by norm_num)]
      simp only [hl, he]
      rw [show (14 : ℚ) - 10 = 4 by norm_num]
      decide
    unfold resolveMetricValue
    rw [htrend, hl]
    simp only [ResolvedMetric.mk.injEq]
    refine ⟨?_, ?_, ?_, trivial⟩
    · unfold resolvedValueOf
      rw [hl]
      decide
    · unfold resolvedSourceOf
      rw [hl]
      decide
    · rfl

unseal List.mergeSort List.merge in
/-- Witness for C4: the universal part applied to a facility holding a
current value 3 for a metric whose historical latest value is 14. -/
theorem resolveMetric_current_precedence_witness :
    (resolveMetricValue
        { current := [("Cur", .num 3)], historical_metrics := fxDashFac.historical_metrics }
        { fxMetricHigher with currentKey := some "Cur" }).source = some "current" ∧
    (resolveMetricValue
        { current := [("Cur", .num 3)], historical_metrics := fxDashFac.historical_metrics }
        { fxMetricHigher with currentKey := some "Cur" }).value = .num 3 :=
  resolveMetric_current_precedence.1
    { current := [("Cur", .num 3)], historical_metrics := fxDashFac.historical_metrics }
    { fxMetricHigher with currentKey := some "Cur" } "Cur" 3 rfl (by decide) (by decide)

unseal List.mergeSort List.merge in
/-- C5 (counterexample): with historical years `{2022: {m: 10}, 2024: {x: 1}}`
and no current value, the resolver returns source `null` and value `null`
although 2022 holds the metric — it does not fall back to the most recent
year in which the metric is present. -/
theorem resolveMetric_gap_year_counterexample :
    (resolveMetricValue fxDashGap fxMetricHigher).source = none ∧
    (resolveMetricValue fxDashGap fxMetricHigher).value = .null ∧
    (natAssocFind fxDashGap.historical_metrics 2022).bind
      (fun ms => assocFind ms fxMetricHigher.historicalKey) = some (.num 10) := by
  refine ⟨?_, ?_, ?_⟩ <;> decide

/-- C5 (amended): with no usable current value, the resolver falls back only
to the metric's value in the globally latest timeline year: the source is
`"historical"` exactly when that year holds a non-null value for the metric
(otherwise the result is none/null even if earlier years hold it), and a
trend is computed exactly when the timeline has at least two years and the
metric is non-null in the globally earliest and globally latest of them. -/
theorem resolveMetric_global_latest_only (fac : DashFacility) (m : MetricDef)
    (hc : ∀ q : ℚ, (currentValueOf fac m).getD .undef ≠ .num q) :
    ((resolveMetricValue fac m).source = some "historical" ↔
      (historicalLatestOf fac m).isSome) ∧
    ((resolveMetricValue fac m).value = .null ↔ historicalLatestOf fac m = none) ∧
    ((resolveMetricValue fac m).trend.isSome ↔
      2 ≤ (histYears fac.historical_metrics).length ∧
      (historicalLatestOf fac m).isSome ∧
      (∃ ey q, (histYears fac.historical_metrics).head? = some ey ∧
        (natAssocFind fac.historical_metrics ey).bind
          (fun ms => assocFind ms m.historicalKey) = some (.num q))) := by
  have hcur : ∀ b, jsCoalesce ((currentValueOf fac m).getD .undef) b = b := by
    intro b
    unfold jsCoalesce
    cases hcv : (currentValueOf fac m).getD .undef with
    | num q => exact absurd hcv (hc q)
    | undef => rfl
    | null => rfl
  have hsrc : resolvedSourceOf fac m =
      (if (historicalLatestOf fac m).isSome then some "historical" else none) := by
    unfold resolvedSourceOf
    cases hcv : (currentValueOf fac m).getD .undef with
    | num q => exact absurd hcv (hc q)
    | undef => rfl
    | null => rfl
  refine ⟨?_, ?_, ?_⟩
  · show resolvedSourceOf fac m = some "historical" ↔ _
    rw [hsrc]
    cases hlat : historicalLatestOf fac m with
    | none => simp
    | some p => simp
  · show resolvedValueOf fac m = .null ↔ _
    unfold resolvedValueOf
    rw [hcur]
    cases hlat : historicalLatestOf fac m with
    | none => simp
    | some p => simp
  · show (trendOf fac m).isSome ↔ _
    unfold trendOf
    by_cases hlen : 2 ≤ (histYears fac.historical_metrics).length
    · rw [if_pos (by simpa using hlen)]
      cases hhead : (histYears fac.historical_metrics).head? with
      | none => simp [hlen, hhead]
      | some ey =>
        cases hlat : historicalLatestOf fac m with
        | none => simp [hlen, hlat]
        | some p =>
          obtain ⟨ly, hl⟩ := p
          cases hearl : (natAssocFind fac.historical_metrics ey).bind
              (fun ms => assocFind ms m.historicalKey) with
          | none => simp [hlen, hhead, hlat, hearl]
          | some v =>
            cases v with
            | num ev => simp [hlen, hhead, hlat, hearl]
            | undef => simp [hlen, hhead, hlat, hearl]
            | null => simp [hlen, hhead, hlat, hearl]
    · rw [if_neg (by simpa using hlen)]
      simp [hlen]

unseal List.mergeSort List.merge in
/-- Witness for C5 (amended) at the gap-year fixture. -/
theorem resolveMetric_global_latest_only_witness :
    ((resolveMetricValue fxDashGap fxMetricHigher).source = some "historical" ↔
      (historicalLatestOf fxDashGap fxMetricHigher).isSome) ∧
    ((resolveMetricValue fxDashGap fxMetricHigher).value = .null ↔
      historicalLatestOf fxDashGap fxMetricHigher = none) ∧
    ((resolveMetricValue fxDashGap fxMetricHigher).trend.isSome ↔
      2 ≤ (histYears fxDashGap.historical_metrics).length ∧
      (historicalLatestOf fxDashGap fxMetricHigher).isSome ∧
      (∃ ey q, (histYears fxDashGap.historical_metrics).head? = some ey ∧
        (natAssocFind fxDashGap.historical_metrics ey).bind
          (fun ms => assocFind ms fxMetricHigher.historicalKey) = some (.num q))) := by
  have hc0 : (currentValueOf fxDashGap fxMetricHigher).getD .undef = .undef := by decide
  exact resolveMetric_global_latest_only fxDashGap fxMetricHigher
    (by
      intro q h
      rw [hc0] at h
      cases h)

/-- C6: for a resolvable hospital, the full ranked list is returned for every
combination of enrichment-collaborator outcomes (the collaborators are
universally quantified, covering all failures): the result is `ok`, the
facility sequence is exactly the truncated ranked list, a failed live quality
fetch degrades to `{}`; the place resolver with a failing live lookup returns
the stale cache entry or null, and the review service with a failing live
fetch returns the cache entry (stale or not) or null. -/
theorem analyze_enrichment_degrades (deps : AnalyzeDeps) (hospitals : List HospitalRec)
    (snfs : List SNFRec) (tl : List (String × TimelineEntry))
    (reg : List (String × RegEntry)) (seeds : List (String × SeedPlace))
    (hospitalName : String) (opts : AnalyzeOptions) (hosp : HospitalRec) (hLat hLon : ℚ)
    (hname : hospitalName ≠ "")
    (hfind : findHospital hospitals hospitalName = some hosp)
    (hcoords : resolveHospitalCoords deps hosp = .ok (hLat, hLon)) :
    (∃ r, performAnalysis deps hospitals snfs tl reg seeds hospitalName opts = .ok r ∧
      r.facilities.map (fun ef => ef.base) = topOf deps snfs opts hLat hLon ∧
      (∀ ef ∈ r.facilities, ∀ e, deps.fetchQuality (rawCcn ef.base.base) = .error e →
        ef.quality = [])) ∧
    (∀ (cache : String → Option PlaceCacheEntry) (apiKey : Option String)
        (now maxAge : ℤ) (f : SNFRec),
        (∀ c, cache (keyForFacility f) = some c → isFreshPlace now maxAge c = false) →
        getPlaceId [] cache apiKey now maxAge (fun _ => .error ()) f =
          cachedAsResolved (cache (keyForFacility f))) ∧
    (∀ (cache : String → Option ReviewSnapshot) (apiKey : Option String)
        (now maxAge : ℤ) (pid : String), pid ≠ "" →
        getReviewSnapshot cache apiKey now maxAge (fun _ => .error ()) pid = cache pid) := by
  refine ⟨?_, ?_, ?_⟩
  · refine ⟨analyzeOk deps snfs tl reg seeds opts hosp hLat hLon,
      performAnalysis_eq_ok deps hospitals snfs tl reg seeds hospitalName opts hosp hLat hLon
        hname hfind hcoords, ?_, ?_⟩
    · show ((topOf deps snfs opts hLat hLon).enum.map
          (fun p => enrichFacility deps tl reg seeds p.1 p.2)).map (fun ef => ef.base) =
        topOf deps snfs opts hLat hLon
      rw [List.map_map]
      exact List.enum_map_snd _
    · intro ef hef e he
      simp only [analyzeOk, List.mem_map] at hef
      obtain ⟨p, hp, rfl⟩ := hef
      rw [enrichFacility_base] at he
      rw [enrichFacility_quality, he]
  · intro cache apiKey now maxAge f hstale
    unfold getPlaceId
    have hseed : seedHitOf [] f = none := by
      unfold seedHitOf
      split <;> rfl
    have hfresh : freshCacheHitOf (cache (keyForFacility f)) now maxAge = none := by
      unfold freshCacheHitOf
      cases hc : cache (keyForFacility f) with
      | none => rfl
      | some c => simp [hstale c hc]
    rw [hseed, hfresh]
    cases hkey : strTruthy apiKey <;> simp
  · intro cache apiKey now maxAge pid hpid
    unfold getReviewSnapshot
    rw [if_neg hpid]
    split
    · rfl
    · split
      · rfl
      · rfl

unseal List.mergeSort List.merge in
/-- Witness for C6 at a concrete input where every enrichment collaborator
fails. -/
theorem analyze_enrichment_degrades_witness :
    (∃ r, performAnalysis fxDepsAllFail [fxHosp] [fxSnf] fxTl [] [] "General Hospital" {} =
        .ok r ∧
      r.facilities.map (fun ef => ef.base) = topOf fxDepsAllFail [fxSnf] {} 34 (-87) ∧
      (∀ ef ∈ r.facilities, ∀ e, fxDepsAllFail.fetchQuality (rawCcn ef.base.base) = .error e →
        ef.quality = [])) ∧
    getPlaceId [] (fun _ => none) none 0 7 (fun _ => .error ()) fxSnf =
      cachedAsResolved ((fun _ => (none : Option PlaceCacheEntry)) (keyForFacility fxSnf)) ∧
    getReviewSnapshot (fun _ => none) none 0 7 (fun _ => .error ()) "pid1" =
      (fun _ => (none : Option ReviewSnapshot)) "pid1" := by
  have h := analyze_enrichment_degrades fxDepsAllFail [fxHosp] [fxSnf] fxTl [] []
    "General Hospital" {} fxHosp 34 (-87) (by decide) (by decide) rfl
  refine ⟨h.1, ?_, ?_⟩
  · exact h.2.1 (fun _ => none) none 0 7 fxSnf (by
      intro c hc
      cases hc)
  · exact h.2.2 (fun _ => none) none 0 7 "pid1" (by decide)

/-- C10: a falsy `options.limit` (0, null, empty string or absent) never
yields an empty result: the default limit 5 applies at truncation, so the
returned list has `min 5 totalWithinRadius` facilities. -/
theorem falsy_limit_defaults (deps : AnalyzeDeps) (hospitals : List HospitalRec)
    (snfs : List SNFRec) (tl : List (String × TimelineEntry))
    (reg : List (String × RegEntry)) (seeds : List (String × SeedPlace))
    (hospitalName : String) (opts : AnalyzeOptions) (r : AnalyzeResult)
    (hlim : opts.limit = .num 0 ∨ opts.limit = .null ∨ opts.limit = .emptyStr ∨
      opts.limit = .undef)
    (h : performAnalysis deps hospitals snfs tl reg seeds hospitalName opts = .ok r) :
    r.facilities.length = min 5 r.totalWithinRadius := by
  obtain ⟨hname, hosp, hLat, hLon, hfind, hcoords, rfl⟩ :=
    performAnalysis_ok_inv deps hospitals snfs tl reg seeds hospitalName opts r h
  have heff : effectiveLimit opts.limit = 5 := by
    rcases hlim with h1 | h1 | h1 | h1 <;> simp [h1, effectiveLimit]
  have htr : jsTruncInt (5 : ℚ) = 5 := by decide
  have hslice : ∀ L : ℕ, jsSliceTake L 5 = min 5 L := by
    intro L
    rw [jsSliceTake, htr]
    rw [if_neg (by norm_num)]
    rfl
  have hlen : (rankedOf deps snfs opts hLat hLon).length =
      (withinRadius deps.dist hLat hLon (opts.radiusMiles.getD 50) snfs).length :=
    (rankFacilities_perm _ _ _).length_eq
  simp only [analyzeOk, List.length_map, List.enum_length, topOf, List.length_take, heff,
    hslice]
  omega

unseal List.mergeSort List.merge in
/-- Witness for C10 with `limit = 0` and one in-radius facility. -/
theorem falsy_limit_defaults_witness :
    ∃ r, performAnalysis fxDeps [fxHosp] [fxSnf] fxTl [] [] "General Hospital"
        { limit := .num 0 } = .ok r ∧
      r.facilities.length = min 5 r.totalWithinRadius := by
  obtain ⟨r, hr⟩ :
      ∃ r, performAnalysis fxDeps [fxHosp] [fxSnf] fxTl [] [] "General Hospital"
        { limit := .num 0 } = .ok r :=
    ⟨_, rfl⟩
  exact ⟨r, hr, falsy_limit_defaults _ _ _ _ _ _ _ _ r (.inl rfl) hr⟩

/-! ## Facts about the embedded trim, supporting the CCN-guard analysis -/

theorem dropWhile_head_not (p : Char → Bool) :
    ∀ (l : List Char) (c : Char), (l.dropWhile p).head? = some c → p c = false := by
  intro l
  induction l with
  | nil =>
    intro c h
    simp at h
  | cons a as ih =>
    intro c h
    by_cases hpa : p a
    · rw [List.dropWhile_cons, if_pos hpa] at h
      exact ih c h
    · rw [List.dropWhile_cons, if_neg hpa] at h
      simp at h
      rw [← h]
      simpa using hpa

theorem getLast?_dropWhile (p : Char → Bool) :
    ∀ l : List Char, l.dropWhile p = [] ∨ (l.dropWhile p).getLast? = l.getLast? := by
  intro l
  induction l with
  | nil => exact .inl rfl
  | cons a as ih =>
    by_cases hpa : p a
    · rw [List.dropWhile_cons, if_pos hpa]
      cases as with
      | nil => exact .inl rfl
      | cons b bs =>
        rcases ih with h | h
        · exact .inl h
        · right
          rw [h, List.getLast?_cons_cons]
    · rw [List.dropWhile_cons, if_neg hpa]
      exact .inr rfl

theorem jsTrim_data (s : String) :
    (jsTrim s).data = ((s.data.dropWhile wsChar).reverse.dropWhile wsChar).reverse := rfl

theorem jsTrim_head_not_ws (s : String) (c : Char)
    (h : (jsTrim s).data.head? = some c) : wsChar c = false := by
  rw [jsTrim_data, List.head?_reverse] at h
  rcases getLast?_dropWhile wsChar (s.data.dropWhile wsChar).reverse with h2 | h2
  · rw [h2] at h
    simp at h
  · rw [h2, List.getLast?_reverse] at h
    exact dropWhile_head_not wsChar _ c h

theorem jsTrim_last_not_ws (s : String) (c : Char)
    (h : (jsTrim s).data.getLast? = some c) : wsChar c = false := by
  rw [jsTrim_data, List.getLast?_reverse] at h
  exact dropWhile_head_not wsChar _ c h

theorem dropWhile_eq_self_of_head (p : Char → Bool) (l : List Char)
    (hc : ∀ c, l.head? = some c → p c = false) : l.dropWhile p = l := by
  cases l with
  | nil => rfl
  | cons a as =>
    rw [List.dropWhile_cons, if_neg (by simp [hc a rfl])]

theorem jsTrim_eq_self (t : String)
    (hhead : ∀ c, t.data.head? = some c → wsChar c = false)
    (hlast : ∀ c, t.data.getLast? = some c → wsChar c = false) :
    jsTrim t = t := by
  have h1 : t.data.dropWhile wsChar = t.data := dropWhile_eq_self_of_head _ _ hhead
  have h2 : t.data.reverse.dropWhile wsChar = t.data.reverse :=
    dropWhile_eq_self_of_head _ _
      (fun c hc => hlast c (by rwa [List.head?_reverse] at hc))
  have hd : (jsTrim t).data = t.data := by
    rw [jsTrim_data, h1, h2, List.reverse_reverse]
  exact String.ext hd

theorem padStart6_data (s : String) :
    (padStart6 s).data = List.replicate (6 - s.data.length) '0' ++ s.data := rfl

theorem trim_padStart6_toString (v : Option String) :
    jsTrim (padStart6 (toStringJs v)) = padStart6 (toStringJs v) ∧
    6 ≤ (padStart6 (toStringJs v)).data.length := by
  constructor
  · have hx : ∃ y, toStringJs v = jsTrim y := by
      cases v with
      | none => exact ⟨"", rfl⟩
      | some s => exact ⟨s, rfl⟩
    obtain ⟨y, hy⟩ := hx
    by_cases hempty : toStringJs v = ""
    · rw [hempty]
      decide
    · have hdata : (toStringJs v).data ≠ [] := by
        intro hnil
        exact hempty (String.ext hnil)
      apply jsTrim_eq_self
      · intro c hc
        rw [padStart6_data] at hc
        rcases hk : 6 - (toStringJs v).data.length with _ | k
        · rw [hk] at hc
          simp at hc
          cases hd : (toStringJs v).data with
          | nil => exact absurd hd hdata
          | cons a as =>
            rw [hd] at hc
            simp at hc
            rw [← hc]
            exact jsTrim_head_not_ws y a (by rw [← hy, hd]; rfl)
        · rw [hk, List.replicate_succ] at hc
          simp at hc
          rw [← hc]
          decide
      · intro c hc
        rw [padStart6_data, List.getLast?_append_of_ne_nil _ hdata] at hc
        rw [hy] at hc
        exact jsTrim_last_not_ws y c hc
  · rw [padStart6_data]
    simp [List.length_append, List.length_replicate]
    omega

theorem normalizeCCN_never_blank (row : Row) :
    jsTrim (normalizeCCNFromRow row) = normalizeCCNFromRow row ∧
    6 ≤ (normalizeCCNFromRow row).data.length := by
  unfold normalizeCCNFromRow
  exact trim_padStart6_toString _

/-- C9 (code_bug): the drop guard for rows without a usable CCN is dead code —
`normalizeCCNFromRow` pads before the emptiness check, so its trimmed result
is never empty (first conjunct: it is its own trim, of length at least 6); a
yearly MDS extract row carrying no CCN column at all is therefore kept, keyed
`"000000"`, in the built year map (middle conjuncts); rows with a CCN join
under the zero-padded key (last conjunct). -/
theorem empty_ccn_rows_kept_eval :
    (∀ row : Row, jsTrim (normalizeCCNFromRow row) = normalizeCCNFromRow row ∧
      6 ≤ (normalizeCCNFromRow row).data.length) ∧
    normalizeCCNFromRow [("Measure Code", "453"), ("Four Quarter Average Score", "2")] =
      "000000" ∧
    loadYear [] [[("Measure Code", "453"), ("Four Quarter Average Score", "2")]] [] [] 2022 =
      [{ ccn := "000000", year := 2022, facility_name := "", address := "", city := "",
         state := "", zip_code := "", county_name := "", phone_number := "",
         metrics := [("pressure_ulcer_rate", 2)] }] ∧
    normalizeCCNFromRow [("CCN", "15009")] = "015009" :=
  ⟨normalizeCCN_never_blank, by decide, by decide, by decide⟩

unseal List.mergeSort List.merge in
/-- C7 (code_bug): the normalization itself maps `"15009"`, `15009` and
`"015009"` to `"015009"` (first three conjuncts), and `mapSNFRow` stores the
raw unpadded CCN; but `performAnalysis` joins the historical timelines with
the raw CCN, so a loaded facility with CCN `"15009"` misses its timeline
keyed `"015009"` (empty `historical_metrics`), while the same facility with
the already-padded CCN joins (last conjunct). -/
theorem ccn_join_uses_raw_ccn :
    padStart6 (toStringPrim (some (.str "15009"))) = "015009" ∧
    padStart6 (toStringPrim (some (.intv 15009))) = "015009" ∧
    padStart6 (toStringPrim (some (.str "015009"))) = "015009" ∧
    (∃ snf, mapSNFRow (fun s => s) fxSnfRow = some snf ∧ snf.CCN = some "15009" ∧
      histYearCounts (performAnalysis fxDeps [fxHosp] [snf] fxTl [] []
        "General Hospital" {}) = some [0]) ∧
    histYearCounts (performAnalysis fxDeps [fxHosp] [fxSnfPadded] fxTl [] []
      "General Hospital" {}) = some [1] := by
  refine ⟨by decide, by decide, by decide, ⟨_, rfl, by decide, by decide⟩, by decide⟩

unseal List.mergeSort List.merge in
/-- C8 (code_bug): the hospital record built by the loader has no capitalized
`Latitude`/`Longitude` properties (they are `undefined`) even when it carries
parsed numeric `latitude`/`longitude`; `performAnalysis` reads the
capitalized properties, so for a loader-produced hospital with stored
coordinates the geocoder is still invoked — its failure fails the request,
and on success the geocoded coordinates (here the origin), not the stored
ones, are used. -/
theorem loader_coordinates_ignored :
    (mapHospitalRow fxHospRow).map (fun h => (h.Latitude, h.Longitude)) =
      some (.undef, .undef) ∧
    ∃ h, mapHospitalRow fxHospRow = some h ∧
      h.latitude = .num 34 ∧ h.longitude = .num (-87) ∧
      errorOf (performAnalysis fxDepsGeoFail [h] [] [] [] [] "General Hospital" {}) =
        some .geocodingFailed ∧
      hospitalLatOf (performAnalysis fxDeps [h] [] [] [] [] "General Hospital" {}) =
        some 0 := by
  refine ⟨by decide, ⟨_, rfl, by decide, by decide, by decide, by decide⟩⟩

end SNF
